import Mathlib

/-!
Verification of the minimax core of a console Tic-Tac-Toe program (src/main.go).

The Go program stores the board as `[3][3]string`, where the only cell values the
program ever writes are the constants `playerX = "X"`, `playerO = "O"` and
`emptyCell = " "` (see `initializeBoard` and every assignment site).  We embed
that value space as the three-element inductive type `Cell` and the board as a
record of its nine cells, addressed by `(row, column)` with both indices in
`Fin 3`, exactly the index range of the Go array.

Go passes `board` by value, so `minimax` and `findBestMove` never mutate their
caller's board; internally they mutate their local copy and restore it.  The
pure functions below model the value-level behaviour; `minimaxS` additionally
models the in-place place/recurse/retract mutation of the board explicitly, for
the frame property.

The Go `minimax` recursion terminates because each recursive call fills one
empty cell.  We realise it as `minimaxFuel`, structurally recursive on a fuel
argument, instantiated with the number of empty cells (`minimax`).  The theorem
`minimax_terminal` together with `minimax_nonterminal_max` and
`minimax_nonterminal_min` certifies that `minimax` satisfies precisely the
recurrence of the Go source (src/main.go lines 105-140).
-/

/-- Cell values: the Go program uses the strings `" "`, `"X"`, `"O"` and never
stores any other string in a board cell. -/
inductive Cell where
  | empty : Cell
  | x : Cell
  | o : Cell
deriving DecidableEq

/-- Go constant `playerX = "X"` (the human's mark). -/
def playerX : Cell := Cell.x

/-- Go constant `playerO = "O"` (the computer's mark). -/
def playerO : Cell := Cell.o

/-- Go constant `emptyCell = " "`. -/
def emptyCell : Cell := Cell.empty

/-- The board: Go's `type board [3][3]string`, one field per cell `cIJ = b[I][J]`. -/
structure board where
  c00 : Cell
  c01 : Cell
  c02 : Cell
  c10 : Cell
  c11 : Cell
  c12 : Cell
  c20 : Cell
  c21 : Cell
  c22 : Cell
deriving DecidableEq

/-- Go `initializeBoard`: every cell set to `emptyCell`. -/
def initializeBoard : board :=
  ⟨emptyCell, emptyCell, emptyCell, emptyCell, emptyCell,
   emptyCell, emptyCell, emptyCell, emptyCell⟩

/-- Read `b[i][j]`. -/
def getCell (b : board) : Fin 3 → Fin 3 → Cell
  | ⟨0, _⟩, ⟨0, _⟩ => b.c00
  | ⟨0, _⟩, ⟨1, _⟩ => b.c01
  | ⟨0, _⟩, ⟨2, _⟩ => b.c02
  | ⟨1, _⟩, ⟨0, _⟩ => b.c10
  | ⟨1, _⟩, ⟨1, _⟩ => b.c11
  | ⟨1, _⟩, ⟨2, _⟩ => b.c12
  | ⟨2, _⟩, ⟨0, _⟩ => b.c20
  | ⟨2, _⟩, ⟨1, _⟩ => b.c21
  | ⟨2, _⟩, ⟨2, _⟩ => b.c22
  | ⟨_+3, h⟩, _ => absurd h (by omega)
  | _, ⟨_+3, h⟩ => absurd h (by omega)

/-- Write `b[i][j] = v` (Go assigns through the array; the result is the updated board). -/
def setCell (b : board) : Fin 3 → Fin 3 → Cell → board
  | ⟨0, _⟩, ⟨0, _⟩, v => { b with c00 := v }
  | ⟨0, _⟩, ⟨1, _⟩, v => { b with c01 := v }
  | ⟨0, _⟩, ⟨2, _⟩, v => { b with c02 := v }
  | ⟨1, _⟩, ⟨0, _⟩, v => { b with c10 := v }
  | ⟨1, _⟩, ⟨1, _⟩, v => { b with c11 := v }
  | ⟨1, _⟩, ⟨2, _⟩, v => { b with c12 := v }
  | ⟨2, _⟩, ⟨0, _⟩, v => { b with c20 := v }
  | ⟨2, _⟩, ⟨1, _⟩, v => { b with c21 := v }
  | ⟨2, _⟩, ⟨2, _⟩, v => { b with c22 := v }
  | ⟨_+3, h⟩, _, _ => absurd h (by omega)
  | _, ⟨_+3, h⟩, _ => absurd h (by omega)

/-- The nine cells in the row-major order of Go's nested `for i { for j { ... } }` loops. -/
def allCells : List (Fin 3 × Fin 3) :=
  [(0, 0), (0, 1), (0, 2), (1, 0), (1, 1), (1, 2), (2, 0), (2, 1), (2, 2)]

/-- Go `getAvailableMoves`: the empty cells, scanned in row-major order. -/
def getAvailableMoves (b : board) : List (Fin 3 × Fin 3) :=
  allCells.filter (fun move => decide (getCell b move.1 move.2 = emptyCell))

/-- Go `checkWin`: the three rows, then the three columns, then the two diagonals;
the early `return true` of the Go loops is the disjunction. -/
def checkWin (b : board) (player : Cell) : Bool :=
  (decide (b.c00 = player) && decide (b.c01 = player) && decide (b.c02 = player)) ||
  (decide (b.c10 = player) && decide (b.c11 = player) && decide (b.c12 = player)) ||
  (decide (b.c20 = player) && decide (b.c21 = player) && decide (b.c22 = player)) ||
  (decide (b.c00 = player) && decide (b.c10 = player) && decide (b.c20 = player)) ||
  (decide (b.c01 = player) && decide (b.c11 = player) && decide (b.c21 = player)) ||
  (decide (b.c02 = player) && decide (b.c12 = player) && decide (b.c22 = player)) ||
  (decide (b.c00 = player) && decide (b.c11 = player) && decide (b.c22 = player)) ||
  (decide (b.c02 = player) && decide (b.c11 = player) && decide (b.c20 = player))

/-- Go `isBoardFull`: `len(getAvailableMoves(b)) == 0`. -/
def isBoardFull (b : board) : Bool :=
  decide ((getAvailableMoves b).length = 0)

/-- Go `evaluateBoard`: `+10` for a computer (O) win, `-10` for a player (X) win,
`0` otherwise; the O check comes first. -/
def evaluateBoard (b : board) : Int :=
  if checkWin b playerO then 10
  else if checkWin b playerX then -10
  else 0

/-- Go `math.MinInt32`. -/
def minInt32 : Int := -2147483648

/-- Go `math.MaxInt32`. -/
def maxInt32 : Int := 2147483647

/-- Number of empty cells; it bounds (and measures) the Go recursion depth. -/
def numEmpty (b : board) : Nat := (getAvailableMoves b).length

/-- Body of Go `minimax` (src/main.go lines 105-140), structurally recursive on a
fuel argument.  The fuel only limits the recursion depth: `minimax` below always
supplies fuel equal to the number of empty cells, which the recursion never
exhausts, because each recursive call is made on a board with exactly one more
mark.  The `depth` parameter is Go's: passed along, incremented, never used. -/
def minimaxFuel : Nat → board → Nat → Bool → Int
  | 0, b, _, _ => evaluateBoard b
  | fuel+1, b, depth, isMaximizing =>
    let score := evaluateBoard b
    if score = 10 ∨ score = -10 ∨ isBoardFull b = true then score
    else
      let availableMoves := getAvailableMoves b
      if isMaximizing then
        availableMoves.foldl (fun bestScore move =>
          let currentScore := minimaxFuel fuel (setCell b move.1 move.2 playerO) (depth+1) false
          if bestScore < currentScore then currentScore else bestScore) minInt32
      else
        availableMoves.foldl (fun bestScore move =>
          let currentScore := minimaxFuel fuel (setCell b move.1 move.2 playerX) (depth+1) true
          if currentScore < bestScore then currentScore else bestScore) maxInt32

/-- Go `minimax(b, depth, isMaximizing)`: total function of the board, the depth
and the flag.  Theorems `minimax_terminal`, `minimax_nonterminal_max` and
`minimax_nonterminal_min` prove that it satisfies the Go recurrence exactly. -/
def minimax (b : board) (depth : Nat) (isMaximizing : Bool) : Int :=
  minimaxFuel (numEmpty b) b depth isMaximizing

/-- Score of a candidate root move in Go `findBestMove`: place the computer's
mark and search with the human to move (src/main.go lines 158-159). -/
def rootScore (b : board) (move : Fin 3 × Fin 3) : Int :=
  minimax (setCell b move.1 move.2 playerO) 0 false

/-- Body of the selection loop of Go `findBestMove` (src/main.go lines 156-167):
the accumulator is the pair `(bestScore, bestMove)`, updated exactly when
`moveScore > bestScore`. -/
def selectStep (b : board) (acc : Int × Int × Int) (move : Fin 3 × Fin 3) : Int × Int × Int :=
  if acc.1 < rootScore b move
  then (rootScore b move, ((move.1.val : Int), (move.2.val : Int)))
  else acc

/-- Go `findBestMove` (src/main.go lines 143-181).  Go draws `rand.Intn(n)`, a
value in `[0, n)`, at two places; we model the draw by an explicit parameter
`randIdx`, reduced modulo the pool size, so the function is a pure function of
the draw and the board. -/
def findBestMove (randIdx : Nat) (b : board) : Int × Int :=
  let availableMoves := getAvailableMoves b
  if availableMoves.length = 9 then
    let move := availableMoves.getD (randIdx % availableMoves.length) (0, 0)
    ((move.1.val : Int), (move.2.val : Int))
  else
    let result := availableMoves.foldl (selectStep b) (minInt32, -1, -1)
    if result.2.1 = -1 then
      if 0 < availableMoves.length then
        let move := availableMoves.getD (randIdx % availableMoves.length) (0, 0)
        ((move.1.val : Int), (move.2.val : Int))
      else (-1, -1)
    else result.2

/-- State-passing reading of Go `minimax`: the board is mutated in place
(`b[r][c] = mark`), searched, then restored (`b[r][c] = emptyCell`), and the
function returns the score together with the board as it stands after the loop.
This models the speculative mutation of the Go code one assignment at a time;
`minimaxS_eq` proves the returned board is always the input board. -/
def minimaxS : Nat → board → Nat → Bool → Int × board
  | 0, b, _, _ => (evaluateBoard b, b)
  | fuel+1, b, depth, isMaximizing =>
    let score := evaluateBoard b
    if score = 10 ∨ score = -10 ∨ isBoardFull b = true then (score, b)
    else
      let availableMoves := getAvailableMoves b
      if isMaximizing then
        availableMoves.foldl (fun acc move =>
          let placed := setCell acc.2 move.1 move.2 playerO
          let rec1 := minimaxS fuel placed (depth+1) false
          let restored := setCell rec1.2 move.1 move.2 emptyCell
          (if acc.1 < rec1.1 then rec1.1 else acc.1, restored)) (minInt32, b)
      else
        availableMoves.foldl (fun acc move =>
          let placed := setCell acc.2 move.1 move.2 playerX
          let rec1 := minimaxS fuel placed (depth+1) true
          let restored := setCell rec1.2 move.1 move.2 emptyCell
          (if rec1.1 < acc.1 then rec1.1 else acc.1, restored)) (maxInt32, b)

/-- Shape of a draw certificate for the game value of a position: at a node
where the bounded player moves, the certificate names the single move to
examine; at a node where the opponent moves, it carries one sub-certificate per
available move, in the row-major order of `getAvailableMoves`.  `leaf` stands at
positions that are terminal.  Soundness of the two checkers below turns a
kernel evaluation of a small certificate into a bound on `minimaxFuel`,
avoiding the evaluation of the full half-million-node game tree. -/
inductive Cert where
  | leaf : Cert
  | choose : Fin 3 × Fin 3 → Cert → Cert
  | expand : List Cert → Cert

/-- `lbCert k fuel cert b maxi = true` certifies that the minimax value of `b`
is at least `k`: at a maximizing node the certificate names one sufficient move
for O, at a minimizing node every X reply must keep the bound.  Soundness is
`lbCert_sound`. -/
def lbCert (k : Int) : Nat → Cert → board → Bool → Bool
  | 0, _, b, _ => decide (k ≤ evaluateBoard b)
  | fuel+1, cert, b, isMaximizing =>
    if evaluateBoard b = 10 ∨ evaluateBoard b = -10 ∨ isBoardFull b = true
    then decide (k ≤ evaluateBoard b)
    else if isMaximizing then
      match cert with
      | Cert.choose m c =>
        decide (getCell b m.1 m.2 = emptyCell) &&
        lbCert k fuel c (setCell b m.1 m.2 playerO) false
      | _ => false
    else
      match cert with
      | Cert.expand cs =>
        decide ((getAvailableMoves b).length ≤ cs.length) &&
        ((getAvailableMoves b).zip cs).all
          (fun p => lbCert k fuel p.2 (setCell b p.1.1 p.1.2 playerX) true)
      | _ => false

/-- Dual certificate checker: `ubCert k fuel cert b maxi = true` certifies that
the minimax value of `b` is at most `k`: every O move is examined at a
maximizing node, one sufficient X reply at a minimizing node.  Soundness is
`ubCert_sound`. -/
def ubCert (k : Int) : Nat → Cert → board → Bool → Bool
  | 0, _, b, _ => decide (evaluateBoard b ≤ k)
  | fuel+1, cert, b, isMaximizing =>
    if evaluateBoard b = 10 ∨ evaluateBoard b = -10 ∨ isBoardFull b = true
    then decide (evaluateBoard b ≤ k)
    else if isMaximizing then
      match cert with
      | Cert.expand cs =>
        decide ((getAvailableMoves b).length ≤ cs.length) &&
        ((getAvailableMoves b).zip cs).all
          (fun p => ubCert k fuel p.2 (setCell b p.1.1 p.1.2 playerO) false)
      | _ => false
    else
      match cert with
      | Cert.choose m c =>
        decide (getCell b m.1 m.2 = emptyCell) &&
        ubCert k fuel c (setCell b m.1 m.2 playerX) true
      | _ => false

/-! ### Basic facts about cells, boards and the move list -/

lemma mem_allCells (m : Fin 3 × Fin 3) : m ∈ allCells := by
  revert m; decide

lemma nodup_allCells : allCells.Nodup := by decide

lemma getCell_setCell_self (b : board) (i j : Fin 3) (v : Cell) :
    getCell (setCell b i j v) i j = v := by
  fin_cases i <;> fin_cases j <;> rfl

lemma getCell_setCell_ne (b : board) (i j i2 j2 : Fin 3) (v : Cell)
    (h : ¬(i2 = i ∧ j2 = j)) : getCell (setCell b i j v) i2 j2 = getCell b i2 j2 := by
  fin_cases i <;> fin_cases j <;> fin_cases i2 <;> fin_cases j2 <;>
    first
      | rfl
      | exact absurd ⟨rfl, rfl⟩ h

lemma setCell_setCell_cancel (b : board) (i j : Fin 3) (v : Cell)
    (h : getCell b i j = emptyCell) :
    setCell (setCell b i j v) i j emptyCell = b := by
  cases b
  fin_cases i <;> fin_cases j <;> simp_all [setCell, getCell]

lemma mem_getAvailableMoves (b : board) (m : Fin 3 × Fin 3) :
    m ∈ getAvailableMoves b ↔ getCell b m.1 m.2 = emptyCell := by
  simp [getAvailableMoves, List.mem_filter, mem_allCells]

lemma filter_pointwise_erase (p q : Fin 3 × Fin 3 → Bool) (a : Fin 3 × Fin 3)
    (hpa : p a = true) (hqa : q a = false)
    (hagree : ∀ y, y ≠ a → q y = p y) :
    ∀ (l : List (Fin 3 × Fin 3)), l.Nodup → l.filter q = (l.filter p).erase a := by
  intro l
  induction l with
  | nil => intro _; rfl
  | cons c l ih =>
    intro hnd
    rcases List.nodup_cons.mp hnd with ⟨hcl, hl⟩
    by_cases hca : c = a
    · subst hca
      have h1 : List.filter q (c :: l) = List.filter q l := by
        rw [List.filter_cons, hqa]
        simp
      have h2 : List.filter p (c :: l) = c :: List.filter p l := by
        rw [List.filter_cons, hpa]
        simp
      rw [h1, h2, List.erase_cons_head]
      exact List.filter_congr fun y hy => hagree y (fun hya => hcl (hya ▸ hy))
    · have hqc : q c = p c := hagree c hca
      by_cases hpc : p c = true
      · have h1 : List.filter q (c :: l) = c :: List.filter q l := by
          rw [List.filter_cons, hqc, hpc]
          simp
        have h2 : List.filter p (c :: l) = c :: List.filter p l := by
          rw [List.filter_cons, hpc]
          simp
        rw [h1, h2, List.erase_cons_tail (by simp [hca]), ih hl]
      · have hpc2 : p c = false := by
          cases hc : p c
          · rfl
          · exact absurd hc hpc
        have h1 : List.filter q (c :: l) = List.filter q l := by
          rw [List.filter_cons, hqc, hpc2]
          simp
        have h2 : List.filter p (c :: l) = List.filter p l := by
          rw [List.filter_cons, hpc2]
          simp
        rw [h1, h2]
        exact ih hl

lemma getAvailableMoves_setCell (b : board) (i j : Fin 3) (v : Cell)
    (hv : ¬ v = emptyCell) (h : getCell b i j = emptyCell) :
    getAvailableMoves (setCell b i j v) = (getAvailableMoves b).erase (i, j) := by
  unfold getAvailableMoves
  apply filter_pointwise_erase _ _ (i, j) _ _ _ allCells nodup_allCells
  · simp [h]
  · simp [getCell_setCell_self, hv]
  · intro y hy
    have hne : ¬(y.1 = i ∧ y.2 = j) := by
      rintro ⟨h1, h2⟩
      exact hy (Prod.ext h1 h2)
    simp [getCell_setCell_ne b i j y.1 y.2 v hne]

lemma numEmpty_setCell (b : board) (i j : Fin 3) (v : Cell)
    (hv : ¬ v = emptyCell) (h : getCell b i j = emptyCell) :
    numEmpty (setCell b i j v) = numEmpty b - 1 := by
  unfold numEmpty
  rw [getAvailableMoves_setCell b i j v hv h]
  exact List.length_erase_of_mem ((mem_getAvailableMoves b (i, j)).mpr h)

lemma numEmpty_pos (b : board) (i j : Fin 3) (h : getCell b i j = emptyCell) :
    0 < numEmpty b := by
  have : (i, j) ∈ getAvailableMoves b := (mem_getAvailableMoves b (i, j)).mpr h
  exact List.length_pos.mpr (List.ne_nil_of_mem this)

lemma numEmpty_le_nine (b : board) : numEmpty b ≤ 9 := by
  have := List.length_filter_le
    (fun move => decide (getCell b move.1 move.2 = emptyCell)) allCells
  exact this

lemma all_empty_of_nine (b : board) (h : (getAvailableMoves b).length = 9) :
    ∀ i j : Fin 3, getCell b i j = emptyCell := by
  have hsub : List.Sublist (getAvailableMoves b) allCells :=
    List.filter_sublist allCells
  have heq : getAvailableMoves b = allCells := hsub.eq_of_length (by simp [h, allCells])
  intro i j
  exact (mem_getAvailableMoves b (i, j)).mp (heq ▸ mem_allCells (i, j))

/-! ### The accumulator loops of `minimax` and `findBestMove`

The Go loops keep a running best score (and, in `findBestMove`, the best move),
replacing it exactly on a strict improvement.  The lemmas characterise the
resulting fold: the result is an upper (resp. lower) bound of the scores, is
attained unless nothing beat the initial value, and in the selection loop the
winner is the first candidate attaining the overall maximum. -/

lemma foldl_congr_mem {α β : Type} (l : List α) (f g : β → α → β) (a : β)
    (h : ∀ (acc : β) (x : α), x ∈ l → f acc x = g acc x) :
    l.foldl f a = l.foldl g a := by
  induction l generalizing a with
  | nil => rfl
  | cons c l ih =>
    simp only [List.foldl_cons]
    rw [h a c (List.mem_cons_self c l)]
    exact ih _ fun acc x hx => h acc x (List.mem_cons_of_mem c hx)

lemma foldlMax_ge_init {α : Type} (f : α → Int) (l : List α) (a : Int) :
    a ≤ l.foldl (fun best x => if best < f x then f x else best) a := by
  induction l generalizing a with
  | nil => exact le_refl a
  | cons c l ih =>
    simp only [List.foldl_cons]
    refine le_trans ?_ (ih (if a < f c then f c else a))
    by_cases h : a < f c
    · rw [if_pos h]; exact le_of_lt h
    · rw [if_neg h]

lemma foldlMax_ge_mem {α : Type} (f : α → Int) (l : List α) (a : Int)
    (x : α) (hx : x ∈ l) :
    f x ≤ l.foldl (fun best y => if best < f y then f y else best) a := by
  induction l generalizing a with
  | nil => cases hx
  | cons c l ih =>
    simp only [List.foldl_cons]
    rcases List.mem_cons.mp hx with h | h
    · subst h
      refine le_trans ?_ (foldlMax_ge_init f l _)
      by_cases hc : a < f x
      · rw [if_pos hc]
      · rw [if_neg hc]; exact le_of_not_lt hc
    · exact ih _ h

lemma foldlMax_cases {α : Type} (f : α → Int) (l : List α) (a : Int) :
    l.foldl (fun best y => if best < f y then f y else best) a = a ∨
    ∃ x ∈ l, l.foldl (fun best y => if best < f y then f y else best) a = f x := by
  induction l generalizing a with
  | nil => exact Or.inl rfl
  | cons c l ih =>
    simp only [List.foldl_cons]
    by_cases hc : a < f c
    · rw [if_pos hc]
      rcases ih (f c) with h | ⟨x, hx, h⟩
      · exact Or.inr ⟨c, List.mem_cons_self c l, h⟩
      · exact Or.inr ⟨x, List.mem_cons_of_mem c hx, h⟩
    · rw [if_neg hc]
      rcases ih a with h | ⟨x, hx, h⟩
      · exact Or.inl h
      · exact Or.inr ⟨x, List.mem_cons_of_mem c hx, h⟩

lemma foldlMin_le_init {α : Type} (f : α → Int) (l : List α) (a : Int) :
    l.foldl (fun best x => if f x < best then f x else best) a ≤ a := by
  induction l generalizing a with
  | nil => exact le_refl a
  | cons c l ih =>
    simp only [List.foldl_cons]
    refine le_trans (ih (if f c < a then f c else a)) ?_
    by_cases h : f c < a
    · rw [if_pos h]; exact le_of_lt h
    · rw [if_neg h]

lemma foldlMin_le_mem {α : Type} (f : α → Int) (l : List α) (a : Int)
    (x : α) (hx : x ∈ l) :
    l.foldl (fun best y => if f y < best then f y else best) a ≤ f x := by
  induction l generalizing a with
  | nil => cases hx
  | cons c l ih =>
    simp only [List.foldl_cons]
    rcases List.mem_cons.mp hx with h | h
    · subst h
      refine le_trans (foldlMin_le_init f l _) ?_
      by_cases hc : f x < a
      · rw [if_pos hc]
      · rw [if_neg hc]; exact le_of_not_lt hc
    · exact ih _ h

lemma foldlMin_cases {α : Type} (f : α → Int) (l : List α) (a : Int) :
    l.foldl (fun best y => if f y < best then f y else best) a = a ∨
    ∃ x ∈ l, l.foldl (fun best y => if f y < best then f y else best) a = f x := by
  induction l generalizing a with
  | nil => exact Or.inl rfl
  | cons c l ih =>
    simp only [List.foldl_cons]
    by_cases hc : f c < a
    · rw [if_pos hc]
      rcases ih (f c) with h | ⟨x, hx, h⟩
      · exact Or.inr ⟨c, List.mem_cons_self c l, h⟩
      · exact Or.inr ⟨x, List.mem_cons_of_mem c hx, h⟩
    · rw [if_neg hc]
      rcases ih a with h | ⟨x, hx, h⟩
      · exact Or.inl h
      · exact Or.inr ⟨x, List.mem_cons_of_mem c hx, h⟩

lemma selLoop_keep (b : board) :
    ∀ (l : List (Fin 3 × Fin 3)) (acc : Int × Int × Int),
      (∀ m ∈ l, rootScore b m ≤ acc.1) →
      l.foldl (selectStep b) acc = acc := by
  intro l
  induction l with
  | nil => intro acc _; rfl
  | cons c l ih =>
    intro acc h
    simp only [List.foldl_cons]
    have hc : ¬ acc.1 < rootScore b c := not_lt.mpr (h c (List.mem_cons_self c l))
    have hstep : selectStep b acc c = acc := by
      simp only [selectStep]
      rw [if_neg hc]
    rw [hstep]
    exact ih acc fun m hm => h m (List.mem_cons_of_mem c hm)

lemma selLoop_select (b : board) :
    ∀ (l : List (Fin 3 × Fin 3)) (acc : Int × Int × Int),
      (∃ m ∈ l, acc.1 < rootScore b m) →
      ∃ (k : Nat) (hk : k < l.length),
        l.foldl (selectStep b) acc =
          (rootScore b (l.get ⟨k, hk⟩),
            ((l.get ⟨k, hk⟩).1.val : Int), ((l.get ⟨k, hk⟩).2.val : Int)) ∧
        acc.1 < rootScore b (l.get ⟨k, hk⟩) ∧
        (∀ (i : Nat) (hi : i < l.length),
          rootScore b (l.get ⟨i, hi⟩) ≤ rootScore b (l.get ⟨k, hk⟩)) ∧
        (∀ (i : Nat) (hi : i < k),
          rootScore b (l.get ⟨i, Nat.lt_trans hi hk⟩) < rootScore b (l.get ⟨k, hk⟩)) := by
  intro l
  induction l with
  | nil =>
    rintro acc ⟨m, hm, _⟩
    cases hm
  | cons c l ih =>
    rintro acc ⟨m, hm, hlt⟩
    simp only [List.foldl_cons]
    by_cases hc : acc.1 < rootScore b c
    · have hstep : selectStep b acc c =
          (rootScore b c, ((c.1.val : Int), (c.2.val : Int))) := by
        simp only [selectStep]
        rw [if_pos hc]
      rw [hstep]
      by_cases hrest : ∃ m2 ∈ l, rootScore b c < rootScore b m2
      · obtain ⟨k, hk, heq, hlt2, hub, hfirst⟩ :=
          ih (rootScore b c, ((c.1.val : Int), (c.2.val : Int))) (by exact hrest)
        refine ⟨k+1, Nat.succ_lt_succ hk, heq, lt_trans hc hlt2, ?_, ?_⟩
        · intro i hi
          cases i with
          | zero => exact le_of_lt hlt2
          | succ i => exact hub i (Nat.lt_of_succ_lt_succ hi)
        · intro i hi
          cases i with
          | zero => exact hlt2
          | succ i => exact hfirst i (Nat.lt_of_succ_lt_succ hi)
      · have hall : ∀ m2 ∈ l, rootScore b m2 ≤ rootScore b c :=
          fun m2 hm2 => le_of_not_lt fun hlt3 => hrest ⟨m2, hm2, hlt3⟩
        rw [selLoop_keep b l _ hall]
        refine ⟨0, Nat.succ_pos _, rfl, hc, ?_, ?_⟩
        · intro i hi
          cases i with
          | zero => exact le_refl _
          | succ i => exact hall _ (List.get_mem l i (Nat.lt_of_succ_lt_succ hi))
        · intro i hi
          exact absurd hi (Nat.not_lt_zero i)
    · have hstep : selectStep b acc c = acc := by
        simp only [selectStep]
        rw [if_neg hc]
      rw [hstep]
      have hm2 : m ∈ l := by
        rcases List.mem_cons.mp hm with h | h
        · subst h
          exact absurd hlt hc
        · exact h
      obtain ⟨k, hk, heq, hlt2, hub, hfirst⟩ := ih acc ⟨m, hm2, hlt⟩
      refine ⟨k+1, Nat.succ_lt_succ hk, heq, hlt2, ?_, ?_⟩
      · intro i hi
        cases i with
        | zero => exact le_trans (le_of_not_lt hc) (le_of_lt hlt2)
        | succ i => exact hub i (Nat.lt_of_succ_lt_succ hi)
      · intro i hi
        cases i with
        | zero => exact lt_of_le_of_lt (le_of_not_lt hc) hlt2
        | succ i => exact hfirst i (Nat.lt_of_succ_lt_succ hi)

/-! ### The recurrence of `minimax` -/

lemma evaluateBoard_cases (b : board) :
    evaluateBoard b = -10 ∨ evaluateBoard b = 0 ∨ evaluateBoard b = 10 := by
  unfold evaluateBoard
  split
  · right; right; rfl
  · split
    · left; rfl
    · right; left; rfl

lemma minimaxFuel_terminal (fuel : Nat) (b : board) (d : Nat) (maxi : Bool)
    (h : evaluateBoard b = 10 ∨ evaluateBoard b = -10 ∨ isBoardFull b = true) :
    minimaxFuel fuel b d maxi = evaluateBoard b := by
  cases fuel with
  | zero => rfl
  | succ n =>
    simp only [minimaxFuel]
    rw [if_pos h]

lemma numEmpty_ne_zero_of_nonterminal (b : board)
    (h : ¬(evaluateBoard b = 10 ∨ evaluateBoard b = -10 ∨ isBoardFull b = true)) :
    numEmpty b ≠ 0 := by
  intro h0
  apply h
  right; right
  unfold isBoardFull
  rw [decide_eq_true_iff]
  exact h0

lemma minimax_nonterminal_max_repr (b : board) (d : Nat)
    (h : ¬(evaluateBoard b = 10 ∨ evaluateBoard b = -10 ∨ isBoardFull b = true)) :
    minimax b d true = (getAvailableMoves b).foldl
      (fun bestScore move =>
        if bestScore < minimax (setCell b move.1 move.2 playerO) (d+1) false
        then minimax (setCell b move.1 move.2 playerO) (d+1) false
        else bestScore) minInt32 := by
  obtain ⟨k, hk⟩ : ∃ k, numEmpty b = k + 1 :=
    ⟨numEmpty b - 1, by have := numEmpty_ne_zero_of_nonterminal b h; omega⟩
  unfold minimax
  rw [hk]
  simp only [minimaxFuel]
  rw [if_neg h]
  simp only [if_true]
  apply foldl_congr_mem
  intro acc m hm
  have hcell : getCell b m.1 m.2 = emptyCell := (mem_getAvailableMoves b m).mp hm
  have hnum : numEmpty (setCell b m.1 m.2 playerO) = k := by
    rw [numEmpty_setCell b m.1 m.2 playerO (by decide) hcell, hk]
    omega
  simp only [hnum]

lemma minimax_nonterminal_min_repr (b : board) (d : Nat)
    (h : ¬(evaluateBoard b = 10 ∨ evaluateBoard b = -10 ∨ isBoardFull b = true)) :
    minimax b d false = (getAvailableMoves b).foldl
      (fun bestScore move =>
        if minimax (setCell b move.1 move.2 playerX) (d+1) true < bestScore
        then minimax (setCell b move.1 move.2 playerX) (d+1) true
        else bestScore) maxInt32 := by
  obtain ⟨k, hk⟩ : ∃ k, numEmpty b = k + 1 :=
    ⟨numEmpty b - 1, by have := numEmpty_ne_zero_of_nonterminal b h; omega⟩
  unfold minimax
  rw [hk]
  simp only [minimaxFuel]
  rw [if_neg h]
  simp only [Bool.false_eq_true, if_false]
  apply foldl_congr_mem
  intro acc m hm
  have hcell : getCell b m.1 m.2 = emptyCell := (mem_getAvailableMoves b m).mp hm
  have hnum : numEmpty (setCell b m.1 m.2 playerX) = k := by
    rw [numEmpty_setCell b m.1 m.2 playerX (by decide) hcell, hk]
    omega
  simp only [hnum]

lemma nonterminal_moves_ne_nil (b : board)
    (h : ¬(evaluateBoard b = 10 ∨ evaluateBoard b = -10 ∨ isBoardFull b = true)) :
    getAvailableMoves b ≠ [] := by
  intro h0
  apply h
  right; right
  unfold isBoardFull
  rw [decide_eq_true_iff, h0]
  rfl

lemma minimaxFuel_range (fuel : Nat) :
    ∀ (b : board) (d : Nat) (maxi : Bool),
      minimaxFuel fuel b d maxi = -10 ∨ minimaxFuel fuel b d maxi = 0 ∨
      minimaxFuel fuel b d maxi = 10 := by
  induction fuel with
  | zero => intro b d _; exact evaluateBoard_cases b
  | succ n ih =>
    intro b d maxi
    by_cases hterm : evaluateBoard b = 10 ∨ evaluateBoard b = -10 ∨ isBoardFull b = true
    · rw [minimaxFuel_terminal (n+1) b d maxi hterm]
      exact evaluateBoard_cases b
    · obtain ⟨c, hc⟩ := List.exists_mem_of_ne_nil _ (nonterminal_moves_ne_nil b hterm)
      cases maxi with
      | true =>
        have hrepr : minimaxFuel (n+1) b d true = (getAvailableMoves b).foldl
            (fun best move =>
              if best < minimaxFuel n (setCell b move.1 move.2 playerO) (d+1) false
              then minimaxFuel n (setCell b move.1 move.2 playerO) (d+1) false
              else best) minInt32 := by
          simp only [minimaxFuel]
          rw [if_neg hterm]
          simp only [if_true]
        rcases foldlMax_cases
            (fun move => minimaxFuel n (setCell b move.1 move.2 playerO) (d+1) false)
            (getAvailableMoves b) minInt32 with hcase | ⟨y, hy, hcase⟩
        · exfalso
          have hge2 : minimaxFuel n (setCell b c.1 c.2 playerO) (d+1) false ≤ minInt32 := by
            have hge := foldlMax_ge_mem
              (fun move => minimaxFuel n (setCell b move.1 move.2 playerO) (d+1) false)
              (getAvailableMoves b) minInt32 c hc
            rw [hcase] at hge
            exact hge
          unfold minInt32 at hge2
          rcases ih (setCell b c.1 c.2 playerO) (d+1) false with h1 | h1 | h1 <;>
            rw [h1] at hge2 <;> omega
        · have hval : minimaxFuel (n+1) b d true =
              minimaxFuel n (setCell b y.1 y.2 playerO) (d+1) false := by
            rw [hrepr]
            exact hcase
          rw [hval]
          exact ih (setCell b y.1 y.2 playerO) (d+1) false
      | false =>
        have hrepr : minimaxFuel (n+1) b d false = (getAvailableMoves b).foldl
            (fun best move =>
              if minimaxFuel n (setCell b move.1 move.2 playerX) (d+1) true < best
              then minimaxFuel n (setCell b move.1 move.2 playerX) (d+1) true
              else best) maxInt32 := by
          simp only [minimaxFuel]
          rw [if_neg hterm]
          simp only [Bool.false_eq_true, if_false]
        rcases foldlMin_cases
            (fun move => minimaxFuel n (setCell b move.1 move.2 playerX) (d+1) true)
            (getAvailableMoves b) maxInt32 with hcase | ⟨y, hy, hcase⟩
        · exfalso
          have hle2 : maxInt32 ≤ minimaxFuel n (setCell b c.1 c.2 playerX) (d+1) true := by
            have hle := foldlMin_le_mem
              (fun move => minimaxFuel n (setCell b move.1 move.2 playerX) (d+1) true)
              (getAvailableMoves b) maxInt32 c hc
            rw [hcase] at hle
            exact hle
          unfold maxInt32 at hle2
          rcases ih (setCell b c.1 c.2 playerX) (d+1) true with h1 | h1 | h1 <;>
            rw [h1] at hle2 <;> omega
        · have hval : minimaxFuel (n+1) b d false =
              minimaxFuel n (setCell b y.1 y.2 playerX) (d+1) true := by
            rw [hrepr]
            exact hcase
          rw [hval]
          exact ih (setCell b y.1 y.2 playerX) (d+1) true

lemma minimax_range (b : board) (d : Nat) (maxi : Bool) :
    minimax b d maxi = -10 ∨ minimax b d maxi = 0 ∨ minimax b d maxi = 10 :=
  minimaxFuel_range (numEmpty b) b d maxi

lemma rootScore_range (b : board) (m : Fin 3 × Fin 3) :
    rootScore b m = -10 ∨ rootScore b m = 0 ∨ rootScore b m = 10 :=
  minimax_range (setCell b m.1 m.2 playerO) 0 false

lemma minInt32_lt_rootScore (b : board) (m : Fin 3 × Fin 3) :
    minInt32 < rootScore b m := by
  unfold minInt32
  rcases rootScore_range b m with h | h | h <;> rw [h] <;> omega

/-! ### Soundness of the certificate checkers -/

lemma zip_all_exists {A B : Type} (l1 : List A) (l2 : List B) (f : A → B → Bool)
    (hlen : l1.length ≤ l2.length)
    (h : (l1.zip l2).all (fun p => f p.1 p.2) = true) :
    ∀ m ∈ l1, ∃ c : B, f m c = true := by
  intro m hm
  obtain ⟨⟨i, hi⟩, hget⟩ := List.mem_iff_get.mp hm
  have hiz : i < (l1.zip l2).length := by
    rw [List.length_zip]
    omega
  have hi2 : i < l2.length := by omega
  refine ⟨l2.get ⟨i, hi2⟩, ?_⟩
  have happ := List.all_eq_true.mp h _ (List.getElem_mem hiz)
  rw [List.getElem_zip] at happ
  dsimp at happ
  have hget2 : l1[i] = m := hget
  rw [hget2] at happ
  exact happ

set_option maxHeartbeats 1600000 in
lemma lbCert_sound (k : Int) :
    ∀ (fuel : Nat) (cert : Cert) (b : board) (d : Nat) (maxi : Bool),
      lbCert k fuel cert b maxi = true → k ≤ minimaxFuel fuel b d maxi := by
  intro fuel
  induction fuel with
  | zero =>
    intro cert b d maxi h
    exact of_decide_eq_true h
  | succ n ih =>
    intro cert b d maxi h
    by_cases hterm : evaluateBoard b = 10 ∨ evaluateBoard b = -10 ∨ isBoardFull b = true
    · rw [minimaxFuel_terminal (n+1) b d maxi hterm]
      simp only [lbCert] at h
      rw [if_pos hterm] at h
      exact of_decide_eq_true h
    · cases maxi with
      | true =>
        simp only [lbCert] at h
        rw [if_neg hterm] at h
        simp only [if_true] at h
        cases cert with
        | leaf => simp at h
        | expand cs => simp at h
        | choose m c =>
          simp only [Bool.and_eq_true] at h
          obtain ⟨h1, h2⟩ := h
          have hcell : getCell b m.1 m.2 = emptyCell := of_decide_eq_true h1
          have hm : m ∈ getAvailableMoves b := (mem_getAvailableMoves b m).mpr hcell
          have hchild : k ≤ minimaxFuel n (setCell b m.1 m.2 playerO) (d+1) false :=
            ih c (setCell b m.1 m.2 playerO) (d+1) false h2
          have hrepr : minimaxFuel (n+1) b d true = (getAvailableMoves b).foldl
              (fun best move =>
                if best < minimaxFuel n (setCell b move.1 move.2 playerO) (d+1) false
                then minimaxFuel n (setCell b move.1 move.2 playerO) (d+1) false
                else best) minInt32 := by
            simp only [minimaxFuel]
            rw [if_neg hterm]
            simp only [if_true]
          have hge : minimaxFuel n (setCell b m.1 m.2 playerO) (d+1) false ≤
              minimaxFuel (n+1) b d true := by
            rw [hrepr]
            exact foldlMax_ge_mem
              (fun move => minimaxFuel n (setCell b move.1 move.2 playerO) (d+1) false)
              (getAvailableMoves b) minInt32 m hm
          exact le_trans hchild hge
      | false =>
        simp only [lbCert] at h
        rw [if_neg hterm] at h
        simp only [Bool.false_eq_true, if_false] at h
        cases cert with
        | leaf => simp at h
        | choose m c => simp at h
        | expand cs =>
          simp only [Bool.and_eq_true] at h
          obtain ⟨h1, h2⟩ := h
          have hlen : (getAvailableMoves b).length ≤ cs.length := of_decide_eq_true h1
          have hall := zip_all_exists (getAvailableMoves b) cs
            (fun m c => lbCert k n c (setCell b m.1 m.2 playerX) true) hlen (by exact h2)
          have hrepr : minimaxFuel (n+1) b d false = (getAvailableMoves b).foldl
              (fun best move =>
                if minimaxFuel n (setCell b move.1 move.2 playerX) (d+1) true < best
                then minimaxFuel n (setCell b move.1 move.2 playerX) (d+1) true
                else best) maxInt32 := by
            simp only [minimaxFuel]
            rw [if_neg hterm]
            simp only [Bool.false_eq_true, if_false]
          obtain ⟨c0, hc0⟩ := List.exists_mem_of_ne_nil _ (nonterminal_moves_ne_nil b hterm)
          rcases foldlMin_cases
              (fun move => minimaxFuel n (setCell b move.1 move.2 playerX) (d+1) true)
              (getAvailableMoves b) maxInt32 with hcase | ⟨y, hy, hcase⟩
          · exfalso
            have hle2 : maxInt32 ≤ minimaxFuel n (setCell b c0.1 c0.2 playerX) (d+1) true := by
              have hle := foldlMin_le_mem
                (fun move => minimaxFuel n (setCell b move.1 move.2 playerX) (d+1) true)
                (getAvailableMoves b) maxInt32 c0 hc0
              rw [hcase] at hle
              exact hle
            unfold maxInt32 at hle2
            rcases minimaxFuel_range n (setCell b c0.1 c0.2 playerX) (d+1) true with h3 | h3 | h3 <;>
              rw [h3] at hle2 <;> omega
          · have hval : minimaxFuel (n+1) b d false =
                minimaxFuel n (setCell b y.1 y.2 playerX) (d+1) true := by
              rw [hrepr]
              exact hcase
            rw [hval]
            obtain ⟨cy, hcy⟩ := hall y hy
            exact ih cy (setCell b y.1 y.2 playerX) (d+1) true hcy

set_option maxHeartbeats 1600000 in
lemma ubCert_sound (k : Int) :
    ∀ (fuel : Nat) (cert : Cert) (b : board) (d : Nat) (maxi : Bool),
      ubCert k fuel cert b maxi = true → minimaxFuel fuel b d maxi ≤ k := by
  intro fuel
  induction fuel with
  | zero =>
    intro cert b d maxi h
    exact of_decide_eq_true h
  | succ n ih =>
    intro cert b d maxi h
    by_cases hterm : evaluateBoard b = 10 ∨ evaluateBoard b = -10 ∨ isBoardFull b = true
    · rw [minimaxFuel_terminal (n+1) b d maxi hterm]
      simp only [ubCert] at h
      rw [if_pos hterm] at h
      exact of_decide_eq_true h
    · cases maxi with
      | true =>
        simp only [ubCert] at h
        rw [if_neg hterm] at h
        simp only [if_true] at h
        cases cert with
        | leaf => simp at h
        | choose m c => simp at h
        | expand cs =>
          simp only [Bool.and_eq_true] at h
          obtain ⟨h1, h2⟩ := h
          have hlen : (getAvailableMoves b).length ≤ cs.length := of_decide_eq_true h1
          have hall := zip_all_exists (getAvailableMoves b) cs
            (fun m c => ubCert k n c (setCell b m.1 m.2 playerO) false) hlen (by exact h2)
          have hrepr : minimaxFuel (n+1) b d true = (getAvailableMoves b).foldl
              (fun best move =>
                if best < minimaxFuel n (setCell b move.1 move.2 playerO) (d+1) false
                then minimaxFuel n (setCell b move.1 move.2 playerO) (d+1) false
                else best) minInt32 := by
            simp only [minimaxFuel]
            rw [if_neg hterm]
            simp only [if_true]
          obtain ⟨c0, hc0⟩ := List.exists_mem_of_ne_nil _ (nonterminal_moves_ne_nil b hterm)
          rcases foldlMax_cases
              (fun move => minimaxFuel n (setCell b move.1 move.2 playerO) (d+1) false)
              (getAvailableMoves b) minInt32 with hcase | ⟨y, hy, hcase⟩
          · exfalso
            have hge2 : minimaxFuel n (setCell b c0.1 c0.2 playerO) (d+1) false ≤ minInt32 := by
              have hge := foldlMax_ge_mem
                (fun move => minimaxFuel n (setCell b move.1 move.2 playerO) (d+1) false)
                (getAvailableMoves b) minInt32 c0 hc0
              rw [hcase] at hge
              exact hge
            unfold minInt32 at hge2
            rcases minimaxFuel_range n (setCell b c0.1 c0.2 playerO) (d+1) false with h3 | h3 | h3 <;>
              rw [h3] at hge2 <;> omega
          · have hval : minimaxFuel (n+1) b d true =
                minimaxFuel n (setCell b y.1 y.2 playerO) (d+1) false := by
              rw [hrepr]
              exact hcase
            rw [hval]
            obtain ⟨cy, hcy⟩ := hall y hy
            exact ih cy (setCell b y.1 y.2 playerO) (d+1) false hcy
      | false =>
        simp only [ubCert] at h
        rw [if_neg hterm] at h
        simp only [Bool.false_eq_true, if_false] at h
        cases cert with
        | leaf => simp at h
        | expand cs => simp at h
        | choose m c =>
          simp only [Bool.and_eq_true] at h
          obtain ⟨h1, h2⟩ := h
          have hcell : getCell b m.1 m.2 = emptyCell := of_decide_eq_true h1
          have hm : m ∈ getAvailableMoves b := (mem_getAvailableMoves b m).mpr hcell
          have hchild : minimaxFuel n (setCell b m.1 m.2 playerX) (d+1) true ≤ k :=
            ih c (setCell b m.1 m.2 playerX) (d+1) true h2
          have hrepr : minimaxFuel (n+1) b d false = (getAvailableMoves b).foldl
              (fun best move =>
                if minimaxFuel n (setCell b move.1 move.2 playerX) (d+1) true < best
                then minimaxFuel n (setCell b move.1 move.2 playerX) (d+1) true
                else best) maxInt32 := by
            simp only [minimaxFuel]
            rw [if_neg hterm]
            simp only [Bool.false_eq_true, if_false]
          have hle : minimaxFuel (n+1) b d false ≤
              minimaxFuel n (setCell b m.1 m.2 playerX) (d+1) true := by
            rw [hrepr]
            exact foldlMin_le_mem
              (fun move => minimaxFuel n (setCell b move.1 move.2 playerX) (d+1) true)
              (getAvailableMoves b) maxInt32 m hm
          exact le_trans hle hchild

/-! ### The backtracking of `minimaxS` restores the board -/

lemma minimaxS_loop_max (n d : Nat)
    (ihf : ∀ (b2 : board) (d2 : Nat) (maxi2 : Bool),
      minimaxS n b2 d2 maxi2 = (minimaxFuel n b2 d2 maxi2, b2))
    (b : board) :
    ∀ (l : List (Fin 3 × Fin 3)), (∀ m ∈ l, getCell b m.1 m.2 = emptyCell) →
    ∀ (a : Int),
      l.foldl (fun acc move =>
        let placed := setCell acc.2 move.1 move.2 playerO
        let rec1 := minimaxS n placed (d+1) false
        let restored := setCell rec1.2 move.1 move.2 emptyCell
        (if acc.1 < rec1.1 then rec1.1 else acc.1, restored)) (a, b)
      = (l.foldl (fun best move =>
          if best < minimaxFuel n (setCell b move.1 move.2 playerO) (d+1) false
          then minimaxFuel n (setCell b move.1 move.2 playerO) (d+1) false
          else best) a, b) := by
  intro l
  induction l with
  | nil => intro _ a; rfl
  | cons c l ih =>
    intro hl a
    simp only [List.foldl_cons, ihf]
    rw [setCell_setCell_cancel b c.1 c.2 playerO (hl c (List.mem_cons_self c l))]
    simp only [ihf] at ih
    exact ih (fun m hm => hl m (List.mem_cons_of_mem c hm)) _

lemma minimaxS_loop_min (n d : Nat)
    (ihf : ∀ (b2 : board) (d2 : Nat) (maxi2 : Bool),
      minimaxS n b2 d2 maxi2 = (minimaxFuel n b2 d2 maxi2, b2))
    (b : board) :
    ∀ (l : List (Fin 3 × Fin 3)), (∀ m ∈ l, getCell b m.1 m.2 = emptyCell) →
    ∀ (a : Int),
      l.foldl (fun acc move =>
        let placed := setCell acc.2 move.1 move.2 playerX
        let rec1 := minimaxS n placed (d+1) true
        let restored := setCell rec1.2 move.1 move.2 emptyCell
        (if rec1.1 < acc.1 then rec1.1 else acc.1, restored)) (a, b)
      = (l.foldl (fun best move =>
          if minimaxFuel n (setCell b move.1 move.2 playerX) (d+1) true < best
          then minimaxFuel n (setCell b move.1 move.2 playerX) (d+1) true
          else best) a, b) := by
  intro l
  induction l with
  | nil => intro _ a; rfl
  | cons c l ih =>
    intro hl a
    simp only [List.foldl_cons, ihf]
    rw [setCell_setCell_cancel b c.1 c.2 playerX (hl c (List.mem_cons_self c l))]
    simp only [ihf] at ih
    exact ih (fun m hm => hl m (List.mem_cons_of_mem c hm)) _

lemma minimaxS_spec :
    ∀ (fuel : Nat) (b : board) (d : Nat) (maxi : Bool),
      minimaxS fuel b d maxi = (minimaxFuel fuel b d maxi, b) := by
  intro fuel
  induction fuel with
  | zero => intro b d maxi; rfl
  | succ n ih =>
    intro b d maxi
    by_cases hterm : evaluateBoard b = 10 ∨ evaluateBoard b = -10 ∨ isBoardFull b = true
    · rw [minimaxFuel_terminal (n+1) b d maxi hterm]
      simp only [minimaxS]
      rw [if_pos hterm]
    · cases maxi with
      | true =>
        have hrepr : minimaxFuel (n+1) b d true = (getAvailableMoves b).foldl
            (fun best move =>
              if best < minimaxFuel n (setCell b move.1 move.2 playerO) (d+1) false
              then minimaxFuel n (setCell b move.1 move.2 playerO) (d+1) false
              else best) minInt32 := by
          simp only [minimaxFuel]
          rw [if_neg hterm]
          simp only [if_true]
        rw [hrepr]
        simp only [minimaxS]
        rw [if_neg hterm]
        simp only [if_true]
        exact minimaxS_loop_max n d ih b (getAvailableMoves b)
          (fun m hm => (mem_getAvailableMoves b m).mp hm) minInt32
      | false =>
        have hrepr : minimaxFuel (n+1) b d false = (getAvailableMoves b).foldl
            (fun best move =>
              if minimaxFuel n (setCell b move.1 move.2 playerX) (d+1) true < best
              then minimaxFuel n (setCell b move.1 move.2 playerX) (d+1) true
              else best) maxInt32 := by
          simp only [minimaxFuel]
          rw [if_neg hterm]
          simp only [Bool.false_eq_true, if_false]
        rw [hrepr]
        simp only [minimaxS]
        rw [if_neg hterm]
        simp only [Bool.false_eq_true, if_false]
        exact minimaxS_loop_min n d ih b (getAvailableMoves b)
          (fun m hm => (mem_getAvailableMoves b m).mp hm) maxInt32

/-! ### `findBestMove` on the deterministic path -/

lemma occupied_length_ne_nine (b : board)
    (h : ∃ i j : Fin 3, getCell b i j ≠ emptyCell) :
    (getAvailableMoves b).length ≠ 9 := by
  intro h9
  obtain ⟨i, j, hij⟩ := h
  exact hij (all_empty_of_nine b h9 i j)

lemma findBestMove_eq_loopResult (b : board) (randIdx : Nat)
    (h9 : ¬ (getAvailableMoves b).length = 9)
    (hne : getAvailableMoves b ≠ []) :
    findBestMove randIdx b =
      ((getAvailableMoves b).foldl (selectStep b) (minInt32, -1, -1)).2 := by
  obtain ⟨m0, hm0⟩ := List.exists_mem_of_ne_nil _ hne
  obtain ⟨k, hk, heq, _, _, _⟩ := selLoop_select b (getAvailableMoves b) (minInt32, -1, -1)
    ⟨m0, hm0, minInt32_lt_rootScore b m0⟩
  simp only [findBestMove]
  rw [if_neg h9, heq]
  dsimp only
  rw [if_neg (by omega :
    ¬ ((((getAvailableMoves b).get ⟨k, hk⟩).1.val : Int) = -1))]

lemma findBestMove_full (b : board) (randIdx : Nat)
    (h0 : getAvailableMoves b = []) :
    findBestMove randIdx b = (-1, -1) := by
  simp [findBestMove, h0]

lemma minimax_gt_minInt32 (b : board) (d : Nat) (maxi : Bool) :
    minInt32 < minimax b d maxi := by
  unfold minInt32
  rcases minimax_range b d maxi with h | h | h <;> rw [h] <;> omega

lemma minimax_lt_maxInt32 (b : board) (d : Nat) (maxi : Bool) :
    minimax b d maxi < maxInt32 := by
  unfold maxInt32
  rcases minimax_range b d maxi with h | h | h <;> rw [h] <;> omega

/-! ### Concrete boards used as witnesses and counterexamples -/

/-- Board with a single human mark at (0,0); eight empty cells. -/
def bOneX : board :=
  ⟨playerX, emptyCell, emptyCell, emptyCell, emptyCell,
   emptyCell, emptyCell, emptyCell, emptyCell⟩

/-- Terminal board: the computer has completed row 0. -/
def bOWin : board :=
  ⟨playerO, playerO, playerO, playerX, playerX,
   emptyCell, emptyCell, emptyCell, emptyCell⟩

/-- Full board with no winner (a draw). -/
def bFull : board :=
  ⟨playerX, playerO, playerX, playerX, playerO,
   playerO, playerO, playerX, playerX⟩

/-- Impossible-in-play board on which both sides have a completed line. -/
def bBothWin : board :=
  ⟨playerO, playerO, playerO, playerX, playerX,
   playerX, emptyCell, emptyCell, emptyCell⟩

/-- The spec scenario board [X,O,X / O,X,O / _,_,_], computer to move. -/
def b9 : board :=
  ⟨playerX, playerO, playerX, playerO, playerX,
   playerO, emptyCell, emptyCell, emptyCell⟩

/-! ### The claims -/

/-- C1: on every board with between 1 and 8 empty cells, `findBestMove` scores
each available move in row-major order by placing `O` and calling
`minimax(·, maximizing = false)` (the `rootScore`), and returns the earliest
move attaining the maximum score: the chosen index `k` bounds every candidate
score from above, and every candidate before `k` scores strictly less. -/
theorem c1_findBestMove_first_argmax (b : board) (randIdx : Nat)
    (h1 : 1 ≤ (getAvailableMoves b).length) (h8 : (getAvailableMoves b).length ≤ 8) :
    ∃ (k : Nat) (hk : k < (getAvailableMoves b).length),
      findBestMove randIdx b =
        ((((getAvailableMoves b).get ⟨k, hk⟩).1.val : Int),
         (((getAvailableMoves b).get ⟨k, hk⟩).2.val : Int)) ∧
      (∀ (i : Nat) (hi : i < (getAvailableMoves b).length),
        rootScore b ((getAvailableMoves b).get ⟨i, hi⟩) ≤
          rootScore b ((getAvailableMoves b).get ⟨k, hk⟩)) ∧
      (∀ (i : Nat) (hi : i < k),
        rootScore b ((getAvailableMoves b).get ⟨i, Nat.lt_trans hi hk⟩) <
          rootScore b ((getAvailableMoves b).get ⟨k, hk⟩)) := by
  have h9 : ¬ (getAvailableMoves b).length = 9 := by omega
  have hne : getAvailableMoves b ≠ [] := by
    intro h0
    rw [h0] at h1
    simp at h1
  obtain ⟨m0, hm0⟩ := List.exists_mem_of_ne_nil _ hne
  obtain ⟨k, hk, heq, _, hub, hfirst⟩ :=
    selLoop_select b (getAvailableMoves b) (minInt32, -1, -1)
      ⟨m0, hm0, minInt32_lt_rootScore b m0⟩
  refine ⟨k, hk, ?_, hub, hfirst⟩
  rw [findBestMove_eq_loopResult b randIdx h9 hne, heq]

/-- Witness for C1 at the board with one human mark and eight empty cells. -/
theorem c1_witness :
    1 ≤ (getAvailableMoves bOneX).length ∧ (getAvailableMoves bOneX).length ≤ 8 ∧
    (∃ (k : Nat) (hk : k < (getAvailableMoves bOneX).length),
      findBestMove 0 bOneX =
        ((((getAvailableMoves bOneX).get ⟨k, hk⟩).1.val : Int),
         (((getAvailableMoves bOneX).get ⟨k, hk⟩).2.val : Int)) ∧
      (∀ (i : Nat) (hi : i < (getAvailableMoves bOneX).length),
        rootScore bOneX ((getAvailableMoves bOneX).get ⟨i, hi⟩) ≤
          rootScore bOneX ((getAvailableMoves bOneX).get ⟨k, hk⟩)) ∧
      (∀ (i : Nat) (hi : i < k),
        rootScore bOneX ((getAvailableMoves bOneX).get ⟨i, Nat.lt_trans hi hk⟩) <
          rootScore bOneX ((getAvailableMoves bOneX).get ⟨k, hk⟩))) :=
  ⟨by decide, by decide, c1_findBestMove_first_argmax bOneX 0 (by decide) (by decide)⟩

/-- C2: on every non-terminal board, `minimax` with `maximizing = true` returns
the maximum over all available moves of the value after placing `O`
(attained at some move and an upper bound of all of them), and with
`maximizing = false` the minimum over all available moves of the value after
placing `X`. -/
theorem c2_minimax_nonterminal (b : board) (d : Nat)
    (h : ¬(evaluateBoard b = 10 ∨ evaluateBoard b = -10 ∨ isBoardFull b = true)) :
    ((∃ m ∈ getAvailableMoves b,
        minimax b d true = minimax (setCell b m.1 m.2 playerO) (d+1) false) ∧
      (∀ m ∈ getAvailableMoves b,
        minimax (setCell b m.1 m.2 playerO) (d+1) false ≤ minimax b d true)) ∧
    ((∃ m ∈ getAvailableMoves b,
        minimax b d false = minimax (setCell b m.1 m.2 playerX) (d+1) true) ∧
      (∀ m ∈ getAvailableMoves b,
        minimax b d false ≤ minimax (setCell b m.1 m.2 playerX) (d+1) true)) := by
  obtain ⟨c, hc⟩ := List.exists_mem_of_ne_nil _ (nonterminal_moves_ne_nil b h)
  constructor
  · constructor
    · rcases foldlMax_cases
          (fun m => minimax (setCell b m.1 m.2 playerO) (d+1) false)
          (getAvailableMoves b) minInt32 with hcase | ⟨y, hy, hcase⟩
      · exfalso
        have hge := foldlMax_ge_mem
          (fun m => minimax (setCell b m.1 m.2 playerO) (d+1) false)
          (getAvailableMoves b) minInt32 c hc
        rw [hcase] at hge
        exact absurd hge (not_le.mpr (minimax_gt_minInt32 _ _ _))
      · refine ⟨y, hy, ?_⟩
        rw [minimax_nonterminal_max_repr b d h]
        exact hcase
    · intro m hm
      have hge := foldlMax_ge_mem
        (fun m => minimax (setCell b m.1 m.2 playerO) (d+1) false)
        (getAvailableMoves b) minInt32 m hm
      rw [minimax_nonterminal_max_repr b d h]
      exact hge
  · constructor
    · rcases foldlMin_cases
          (fun m => minimax (setCell b m.1 m.2 playerX) (d+1) true)
          (getAvailableMoves b) maxInt32 with hcase | ⟨y, hy, hcase⟩
      · exfalso
        have hle := foldlMin_le_mem
          (fun m => minimax (setCell b m.1 m.2 playerX) (d+1) true)
          (getAvailableMoves b) maxInt32 c hc
        rw [hcase] at hle
        exact absurd hle (not_le.mpr (minimax_lt_maxInt32 _ _ _))
      · refine ⟨y, hy, ?_⟩
        rw [minimax_nonterminal_min_repr b d h]
        exact hcase
    · intro m hm
      have hle := foldlMin_le_mem
        (fun m => minimax (setCell b m.1 m.2 playerX) (d+1) true)
        (getAvailableMoves b) maxInt32 m hm
      rw [minimax_nonterminal_min_repr b d h]
      exact hle

/-- Witness for C2 at the non-terminal board with one human mark. -/
theorem c2_witness :
    ¬(evaluateBoard bOneX = 10 ∨ evaluateBoard bOneX = -10 ∨ isBoardFull bOneX = true) ∧
    (((∃ m ∈ getAvailableMoves bOneX,
        minimax bOneX 0 true = minimax (setCell bOneX m.1 m.2 playerO) 1 false) ∧
      (∀ m ∈ getAvailableMoves bOneX,
        minimax (setCell bOneX m.1 m.2 playerO) 1 false ≤ minimax bOneX 0 true)) ∧
    ((∃ m ∈ getAvailableMoves bOneX,
        minimax bOneX 0 false = minimax (setCell bOneX m.1 m.2 playerX) 1 true) ∧
      (∀ m ∈ getAvailableMoves bOneX,
        minimax bOneX 0 false ≤ minimax (setCell bOneX m.1 m.2 playerX) 1 true))) :=
  ⟨by decide, c2_minimax_nonterminal bOneX 0 (by decide)⟩

/-- C3: on every terminal board (evaluation ±10 or full), `minimax` returns the
static evaluation, for every maximizing flag and every depth: the depth never
discounts the score. -/
theorem c3_minimax_terminal (b : board) (d : Nat) (maxi : Bool)
    (h : evaluateBoard b = 10 ∨ evaluateBoard b = -10 ∨ isBoardFull b = true) :
    minimax b d maxi = evaluateBoard b :=
  minimaxFuel_terminal (numEmpty b) b d maxi h

/-- Witness for C3 at a board the computer has won, with a nonzero depth. -/
theorem c3_witness :
    (evaluateBoard bOWin = 10 ∨ evaluateBoard bOWin = -10 ∨ isBoardFull bOWin = true) ∧
    minimax bOWin 5 true = evaluateBoard bOWin :=
  ⟨by decide, c3_minimax_terminal bOWin 5 true (by decide)⟩

/-- C4 counterexample: on the (unreachable in play) board with a completed O row
and a completed X row, `hasWon` holds for the human yet `evaluateBoard` is not
-10 (it is +10, the O branch being checked first), refuting the claimed
equivalence "returns -10 if and only if hasWon(board, humanMark)". -/
theorem c4_counterexample :
    checkWin bBothWin playerX = true ∧ evaluateBoard bBothWin ≠ -10 := by
  decide

/-- C4 amended: `evaluateBoard` always returns one of -10, 0, 10; it returns 10
exactly when the computer has won, and -10 exactly when the human has won AND
the computer has not (the O check is first, so a both-win board evaluates to
+10). -/
theorem c4_evaluateBoard_amended (b : board) :
    (evaluateBoard b = -10 ∨ evaluateBoard b = 0 ∨ evaluateBoard b = 10) ∧
    (evaluateBoard b = 10 ↔ checkWin b playerO = true) ∧
    (evaluateBoard b = -10 ↔ (checkWin b playerX = true ∧ checkWin b playerO = false)) := by
  refine ⟨evaluateBoard_cases b, ?_, ?_⟩ <;>
    unfold evaluateBoard <;>
    cases hO : checkWin b playerO <;> cases hX : checkWin b playerX <;>
    simp [hO, hX]

/-- Draw-securing certificate for the maximizer from the empty board: one O
move per maximizing node, all X replies expanded, reaching only terminal
positions of value at least 0.  Generated offline; validity is checked by the
kernel in the proof of C5. -/
def lbCertEmpty : Cert :=
  Cert.choose (0, 0) (Cert.expand [Cert.choose (1, 0) (Cert.expand [Cert.choose (2, 0) (Cert.leaf), Cert.choose (2, 0) (Cert.leaf), Cert.choose (2, 0) (Cert.leaf), Cert.choose (1, 1) (Cert.expand [Cert.choose (1, 2) (Cert.leaf), Cert.choose (2, 2) (Cert.leaf), Cert.choose (1, 2) (Cert.leaf), Cert.choose (1, 2) (Cert.leaf)]), Cert.choose (2, 0) (Cert.leaf), Cert.choose (2, 0) (Cert.leaf)]), Cert.choose (1, 0) (Cert.expand [Cert.choose (2, 0) (Cert.leaf), Cert.choose (2, 0) (Cert.leaf), Cert.choose (2, 0) (Cert.leaf), Cert.choose (1, 1) (Cert.expand [Cert.choose (1, 2) (Cert.leaf), Cert.choose (2, 2) (Cert.leaf), Cert.choose (1, 2) (Cert.leaf), Cert.choose (1, 2) (Cert.leaf)]), Cert.choose (2, 0) (Cert.leaf), Cert.choose (2, 0) (Cert.leaf)]), Cert.choose (0, 1) (Cert.expand [Cert.choose (1, 1) (Cert.expand [Cert.choose (2, 1) (Cert.leaf), Cert.choose (2, 1) (Cert.leaf), Cert.choose (2, 2) (Cert.leaf), Cert.choose (2, 1) (Cert.leaf)]), Cert.choose (0, 2) (Cert.leaf), Cert.choose (0, 2) (Cert.leaf), Cert.choose (0, 2) (Cert.leaf), Cert.choose (0, 2) (Cert.leaf), Cert.choose (0, 2) (Cert.leaf)]), Cert.choose (0, 1) (Cert.expand [Cert.choose (2, 0) (Cert.expand [Cert.choose (1, 2) (Cert.expand [Cert.choose (2, 2) (Cert.leaf), Cert.choose (2, 1) (Cert.leaf)]), Cert.choose (1, 0) (Cert.leaf), Cert.choose (1, 0) (Cert.leaf), Cert.choose (1, 0) (Cert.leaf)]), Cert.choose (0, 2) (Cert.leaf), Cert.choose (0, 2) (Cert.leaf), Cert.choose (0, 2) (Cert.leaf), Cert.choose (0, 2) (Cert.leaf), Cert.choose (0, 2) (Cert.leaf)]), Cert.choose (0, 2) (Cert.expand [Cert.choose (1, 1) (Cert.expand [Cert.choose (2, 0) (Cert.leaf), Cert.choose (2, 2) (Cert.leaf), Cert.choose (2, 0) (Cert.leaf), Cert.choose (2, 0) (Cert.leaf)]), Cert.choose (0, 1) (Cert.leaf), Cert.choose (0, 1) (Cert.leaf), Cert.choose (0, 1) (Cert.leaf), Cert.choose (0, 1) (Cert.leaf), Cert.choose (0, 1) (Cert.leaf)]), Cert.choose (0, 1) (Cert.expand [Cert.choose (1, 1) (Cert.expand [Cert.choose (2, 1) (Cert.leaf), Cert.choose (2, 1) (Cert.leaf), Cert.choose (2, 2) (Cert.leaf), Cert.choose (2, 1) (Cert.leaf)]), Cert.choose (0, 2) (Cert.leaf), Cert.choose (0, 2) (Cert.leaf), Cert.choose (0, 2) (Cert.leaf), Cert.choose (0, 2) (Cert.leaf), Cert.choose (0, 2) (Cert.leaf)]), Cert.choose (0, 2) (Cert.expand [Cert.choose (1, 1) (Cert.expand [Cert.choose (2, 0) (Cert.leaf), Cert.choose (2, 0) (Cert.leaf), Cert.choose (2, 2) (Cert.leaf), Cert.choose (2, 0) (Cert.leaf)]), Cert.choose (0, 1) (Cert.leaf), Cert.choose (0, 1) (Cert.leaf), Cert.choose (0, 1) (Cert.leaf), Cert.choose (0, 1) (Cert.leaf), Cert.choose (0, 1) (Cert.leaf)]), Cert.choose (0, 2) (Cert.expand [Cert.choose (2, 0) (Cert.expand [Cert.choose (1, 1) (Cert.leaf), Cert.choose (1, 0) (Cert.leaf), Cert.choose (1, 0) (Cert.leaf), Cert.choose (1, 0) (Cert.leaf)]), Cert.choose (0, 1) (Cert.leaf), Cert.choose (0, 1) (Cert.leaf), Cert.choose (0, 1) (Cert.leaf), Cert.choose (0, 1) (Cert.leaf), Cert.choose (0, 1) (Cert.leaf)])])

/-- Draw-securing certificate for the minimizer from the empty board: every O
move expanded, one X reply per minimizing node, reaching only terminal
positions of value at most 0. -/
def ubCertEmpty : Cert :=
  Cert.expand [Cert.choose (1, 1) (Cert.expand [Cert.choose (0, 2) (Cert.expand [Cert.choose (2, 0) (Cert.leaf), Cert.choose (2, 0) (Cert.leaf), Cert.choose (1, 0) (Cert.expand [Cert.choose (2, 1) (Cert.expand [Cert.leaf]), Cert.choose (1, 2) (Cert.leaf), Cert.choose (1, 2) (Cert.leaf)]), Cert.choose (2, 0) (Cert.leaf), Cert.choose (2, 0) (Cert.leaf)]), Cert.choose (0, 1) (Cert.expand [Cert.choose (2, 1) (Cert.leaf), Cert.choose (2, 1) (Cert.leaf), Cert.choose (2, 1) (Cert.leaf), Cert.choose (1, 0) (Cert.expand [Cert.choose (2, 2) (Cert.expand [Cert.leaf]), Cert.choose (1, 2) (Cert.leaf), Cert.choose (1, 2) (Cert.leaf)]), Cert.choose (2, 1) (Cert.leaf)]), Cert.choose (2, 0) (Cert.expand [Cert.choose (0, 2) (Cert.leaf), Cert.choose (0, 1) (Cert.expand [Cert.choose (2, 1) (Cert.leaf), Cert.choose (1, 2) (Cert.expand [Cert.leaf]), Cert.choose (2, 1) (Cert.leaf)]), Cert.choose (0, 2) (Cert.leaf), Cert.choose (0, 2) (Cert.leaf), Cert.choose (0, 2) (Cert.leaf)]), Cert.choose (0, 1) (Cert.expand [Cert.choose (2, 1) (Cert.leaf), Cert.choose (2, 1) (Cert.leaf), Cert.choose (2, 1) (Cert.leaf), Cert.choose (2, 0) (Cert.expand [Cert.choose (2, 2) (Cert.expand [Cert.leaf]), Cert.choose (0, 2) (Cert.leaf), Cert.choose (0, 2) (Cert.leaf)]), Cert.choose (2, 1) (Cert.leaf)]), Cert.choose (1, 0) (Cert.expand [Cert.choose (1, 2) (Cert.leaf), Cert.choose (1, 2) (Cert.leaf), Cert.choose (0, 1) (Cert.expand [Cert.choose (2, 1) (Cert.leaf), Cert.choose (2, 2) (Cert.expand [Cert.leaf]), Cert.choose (2, 1) (Cert.leaf)]), Cert.choose (1, 2) (Cert.leaf), Cert.choose (1, 2) (Cert.leaf)]), Cert.choose (1, 0) (Cert.expand [Cert.choose (1, 2) (Cert.leaf), Cert.choose (1, 2) (Cert.leaf), Cert.choose (0, 2) (Cert.expand [Cert.choose (2, 0) (Cert.leaf), Cert.choose (2, 2) (Cert.expand [Cert.leaf]), Cert.choose (2, 0) (Cert.leaf)]), Cert.choose (1, 2) (Cert.leaf), Cert.choose (1, 2) (Cert.leaf)]), Cert.choose (0, 1) (Cert.expand [Cert.choose (2, 1) (Cert.leaf), Cert.choose (2, 1) (Cert.leaf), Cert.choose (2, 1) (Cert.leaf), Cert.choose (2, 1) (Cert.leaf), Cert.choose (2, 0) (Cert.expand [Cert.choose (1, 2) (Cert.expand [Cert.leaf]), Cert.choose (0, 2) (Cert.leaf), Cert.choose (0, 2) (Cert.leaf)])])]), Cert.choose (1, 1) (Cert.expand [Cert.choose (0, 2) (Cert.expand [Cert.choose (2, 0) (Cert.leaf), Cert.choose (2, 0) (Cert.leaf), Cert.choose (1, 0) (Cert.expand [Cert.choose (2, 1) (Cert.expand [Cert.leaf]), Cert.choose (1, 2) (Cert.leaf), Cert.choose (1, 2) (Cert.leaf)]), Cert.choose (2, 0) (Cert.leaf), Cert.choose (2, 0) (Cert.leaf)]), Cert.choose (0, 0) (Cert.expand [Cert.choose (2, 2) (Cert.leaf), Cert.choose (2, 2) (Cert.leaf), Cert.choose (2, 2) (Cert.leaf), Cert.choose (2, 2) (Cert.leaf), Cert.choose (1, 2) (Cert.expand [Cert.choose (2, 0) (Cert.expand [Cert.leaf]), Cert.choose (1, 0) (Cert.leaf), Cert.choose (1, 0) (Cert.leaf)])]), Cert.choose (0, 0) (Cert.expand [Cert.choose (2, 2) (Cert.leaf), Cert.choose (2, 2) (Cert.leaf), Cert.choose (2, 2) (Cert.leaf), Cert.choose (2, 2) (Cert.leaf), Cert.choose (0, 2) (Cert.expand [Cert.choose (2, 0) (Cert.leaf), Cert.choose (2, 1) (Cert.expand [Cert.leaf]), Cert.choose (2, 0) (Cert.leaf)])]), Cert.choose (0, 0) (Cert.expand [Cert.choose (2, 2) (Cert.leaf), Cert.choose (2, 2) (Cert.leaf), Cert.choose (2, 2) (Cert.leaf), Cert.choose (2, 2) (Cert.leaf), Cert.choose (0, 2) (Cert.expand [Cert.choose (2, 0) (Cert.leaf), Cert.choose (2, 1) (Cert.expand [Cert.leaf]), Cert.choose (2, 0) (Cert.leaf)])]), Cert.choose (1, 0) (Cert.expand [Cert.choose (1, 2) (Cert.leaf), Cert.choose (1, 2) (Cert.leaf), Cert.choose (2, 2) (Cert.expand [Cert.choose (0, 2) (Cert.expand [Cert.leaf]), Cert.choose (0, 0) (Cert.leaf), Cert.choose (0, 0) (Cert.leaf)]), Cert.choose (1, 2) (Cert.leaf), Cert.choose (1, 2) (Cert.leaf)]), Cert.choose (0, 0) (Cert.expand [Cert.choose (2, 2) (Cert.leaf), Cert.choose (2, 2) (Cert.leaf), Cert.choose (2, 2) (Cert.leaf), Cert.choose (2, 2) (Cert.leaf), Cert.choose (2, 0) (Cert.expand [Cert.choose (1, 0) (Cert.leaf), Cert.choose (0, 2) (Cert.leaf), Cert.choose (0, 2) (Cert.leaf)])]), Cert.choose (1, 0) (Cert.expand [Cert.choose (1, 2) (Cert.leaf), Cert.choose (1, 2) (Cert.leaf), Cert.choose (0, 2) (Cert.expand [Cert.choose (2, 0) (Cert.leaf), Cert.choose (2, 1) (Cert.expand [Cert.leaf]), Cert.choose (2, 0) (Cert.leaf)]), Cert.choose (1, 2) (Cert.leaf), Cert.choose (1, 2) (Cert.leaf)])]), Cert.choose (1, 1) (Cert.expand [Cert.choose (0, 1) (Cert.expand [Cert.choose (2, 1) (Cert.leaf), Cert.choose (2, 1) (Cert.leaf), Cert.choose (2, 1) (Cert.leaf), Cert.choose (1, 0) (Cert.expand [Cert.choose (2, 2) (Cert.expand [Cert.leaf]), Cert.choose (1, 2) (Cert.leaf), Cert.choose (1, 2) (Cert.leaf)]), Cert.choose (2, 1) (Cert.leaf)]), Cert.choose (0, 0) (Cert.expand [Cert.choose (2, 2) (Cert.leaf), Cert.choose (2, 2) (Cert.leaf), Cert.choose (2, 2) (Cert.leaf), Cert.choose (2, 2) (Cert.leaf), Cert.choose (1, 2) (Cert.expand [Cert.choose (2, 0) (Cert.expand [Cert.leaf]), Cert.choose (1, 0) (Cert.leaf), Cert.choose (1, 0) (Cert.leaf)])]), Cert.choose (0, 1) (Cert.expand [Cert.choose (2, 1) (Cert.leaf), Cert.choose (2, 1) (Cert.leaf), Cert.choose (2, 1) (Cert.leaf), Cert.choose (2, 2) (Cert.expand [Cert.choose (2, 0) (Cert.expand [Cert.leaf]), Cert.choose (0, 0) (Cert.leaf), Cert.choose (0, 0) (Cert.leaf)]), Cert.choose (2, 1) (Cert.leaf)]), Cert.choose (2, 2) (Cert.expand [Cert.choose (0, 1) (Cert.expand [Cert.choose (2, 1) (Cert.leaf), Cert.choose (2, 1) (Cert.leaf), Cert.choose (1, 0) (Cert.expand [Cert.leaf])]), Cert.choose (0, 0) (Cert.leaf), Cert.choose (0, 0) (Cert.leaf), Cert.choose (0, 0) (Cert.leaf), Cert.choose (0, 0) (Cert.leaf)]), Cert.choose (0, 1) (Cert.expand [Cert.choose (2, 1) (Cert.leaf), Cert.choose (2, 1) (Cert.leaf), Cert.choose (2, 1) (Cert.leaf), Cert.choose (2, 2) (Cert.expand [Cert.choose (1, 0) (Cert.expand [Cert.leaf]), Cert.choose (0, 0) (Cert.leaf), Cert.choose (0, 0) (Cert.leaf)]), Cert.choose (2, 1) (Cert.leaf)]), Cert.choose (1, 0) (Cert.expand [Cert.choose (1, 2) (Cert.leaf), Cert.choose (1, 2) (Cert.leaf), Cert.choose (2, 2) (Cert.expand [Cert.choose (0, 1) (Cert.expand [Cert.leaf]), Cert.choose (0, 0) (Cert.leaf), Cert.choose (0, 0) (Cert.leaf)]), Cert.choose (1, 2) (Cert.leaf), Cert.choose (1, 2) (Cert.leaf)]), Cert.choose (1, 2) (Cert.expand [Cert.choose (1, 0) (Cert.leaf), Cert.choose (1, 0) (Cert.leaf), Cert.choose (0, 1) (Cert.expand [Cert.choose (2, 1) (Cert.leaf), Cert.choose (2, 1) (Cert.leaf), Cert.choose (2, 0) (Cert.expand [Cert.leaf])]), Cert.choose (1, 0) (Cert.leaf), Cert.choose (1, 0) (Cert.leaf)])]), Cert.choose (1, 1) (Cert.expand [Cert.choose (2, 0) (Cert.expand [Cert.choose (0, 2) (Cert.leaf), Cert.choose (0, 1) (Cert.expand [Cert.choose (2, 1) (Cert.leaf), Cert.choose (1, 2) (Cert.expand [Cert.leaf]), Cert.choose (2, 1) (Cert.leaf)]), Cert.choose (0, 2) (Cert.leaf), Cert.choose (0, 2) (Cert.leaf), Cert.choose (0, 2) (Cert.leaf)]), Cert.choose (0, 0) (Cert.expand [Cert.choose (2, 2) (Cert.leaf), Cert.choose (2, 2) (Cert.leaf), Cert.choose (2, 2) (Cert.leaf), Cert.choose (2, 2) (Cert.leaf), Cert.choose (0, 2) (Cert.expand [Cert.choose (2, 0) (Cert.leaf), Cert.choose (2, 1) (Cert.expand [Cert.leaf]), Cert.choose (2, 0) (Cert.leaf)])]), Cert.choose (0, 1) (Cert.expand [Cert.choose (2, 1) (Cert.leaf), Cert.choose (2, 1) (Cert.leaf), Cert.choose (2, 1) (Cert.leaf), Cert.choose (2, 2) (Cert.expand [Cert.choose (2, 0) (Cert.expand [Cert.leaf]), Cert.choose (0, 0) (Cert.leaf), Cert.choose (0, 0) (Cert.leaf)]), Cert.choose (2, 1) (Cert.leaf)]), Cert.choose (0, 0) (Cert.expand [Cert.choose (2, 2) (Cert.leaf), Cert.choose (2, 2) (Cert.leaf), Cert.choose (2, 2) (Cert.leaf), Cert.choose (2, 2) (Cert.leaf), Cert.choose (0, 2) (Cert.expand [Cert.choose (2, 0) (Cert.leaf), Cert.choose (0, 1) (Cert.leaf), Cert.choose (0, 1) (Cert.leaf)])]), Cert.choose (0, 0) (Cert.expand [Cert.choose (2, 2) (Cert.leaf), Cert.choose (2, 2) (Cert.leaf), Cert.choose (2, 2) (Cert.leaf), Cert.choose (2, 2) (Cert.leaf), Cert.choose (2, 1) (Cert.expand [Cert.choose (0, 2) (Cert.expand [Cert.leaf]), Cert.choose (0, 1) (Cert.leaf), Cert.choose (0, 1) (Cert.leaf)])]), Cert.choose (0, 0) (Cert.expand [Cert.choose (2, 2) (Cert.leaf), Cert.choose (2, 2) (Cert.leaf), Cert.choose (2, 2) (Cert.leaf), Cert.choose (2, 2) (Cert.leaf), Cert.choose (2, 0) (Cert.expand [Cert.choose (0, 2) (Cert.leaf), Cert.choose (1, 2) (Cert.expand [Cert.leaf]), Cert.choose (0, 2) (Cert.leaf)])]), Cert.choose (0, 1) (Cert.expand [Cert.choose (2, 1) (Cert.leaf), Cert.choose (2, 1) (Cert.leaf), Cert.choose (2, 1) (Cert.leaf), Cert.choose (2, 1) (Cert.leaf), Cert.choose (2, 0) (Cert.expand [Cert.choose (0, 2) (Cert.leaf), Cert.choose (1, 2) (Cert.expand [Cert.leaf]), Cert.choose (0, 2) (Cert.leaf)])])]), Cert.choose (0, 0) (Cert.expand [Cert.choose (2, 1) (Cert.expand [Cert.choose (2, 0) (Cert.expand [Cert.choose (2, 2) (Cert.leaf), Cert.choose (1, 0) (Cert.leaf), Cert.choose (1, 0) (Cert.leaf)]), Cert.choose (1, 2) (Cert.expand [Cert.choose (2, 0) (Cert.expand [Cert.leaf]), Cert.choose (0, 2) (Cert.expand [Cert.leaf]), Cert.choose (0, 2) (Cert.expand [Cert.leaf])]), Cert.choose (1, 0) (Cert.expand [Cert.choose (2, 0) (Cert.leaf), Cert.choose (0, 2) (Cert.expand [Cert.leaf]), Cert.choose (2, 0) (Cert.leaf)]), Cert.choose (0, 2) (Cert.expand [Cert.choose (1, 2) (Cert.expand [Cert.leaf]), Cert.choose (1, 0) (Cert.expand [Cert.leaf]), Cert.choose (1, 0) (Cert.expand [Cert.leaf])]), Cert.choose (1, 0) (Cert.expand [Cert.choose (2, 0) (Cert.leaf), Cert.choose (2, 0) (Cert.leaf), Cert.choose (0, 2) (Cert.expand [Cert.leaf])])]), Cert.choose (2, 0) (Cert.expand [Cert.choose (1, 0) (Cert.leaf), Cert.choose (1, 2) (Cert.expand [Cert.choose (2, 1) (Cert.expand [Cert.leaf]), Cert.choose (0, 1) (Cert.expand [Cert.leaf]), Cert.choose (0, 1) (Cert.expand [Cert.leaf])]), Cert.choose (1, 0) (Cert.leaf), Cert.choose (1, 0) (Cert.leaf), Cert.choose (1, 0) (Cert.leaf)]), Cert.choose (1, 2) (Cert.expand [Cert.choose (2, 1) (Cert.expand [Cert.choose (2, 0) (Cert.expand [Cert.leaf]), Cert.choose (0, 2) (Cert.expand [Cert.leaf]), Cert.choose (0, 2) (Cert.expand [Cert.leaf])]), Cert.choose (2, 0) (Cert.expand [Cert.choose (2, 1) (Cert.expand [Cert.leaf]), Cert.choose (0, 1) (Cert.expand [Cert.leaf]), Cert.choose (0, 1) (Cert.expand [Cert.leaf])]), Cert.choose (0, 2) (Cert.expand [Cert.choose (2, 2) (Cert.leaf), Cert.choose (0, 1) (Cert.leaf), Cert.choose (0, 1) (Cert.leaf)]), Cert.choose (0, 1) (Cert.expand [Cert.choose (2, 0) (Cert.expand [Cert.leaf]), Cert.choose (0, 2) (Cert.leaf), Cert.choose (0, 2) (Cert.leaf)]), Cert.choose (0, 1) (Cert.expand [Cert.choose (2, 0) (Cert.expand [Cert.leaf]), Cert.choose (0, 2) (Cert.leaf), Cert.choose (0, 2) (Cert.leaf)])]), Cert.choose (1, 0) (Cert.expand [Cert.choose (2, 0) (Cert.leaf), Cert.choose (2, 0) (Cert.leaf), Cert.choose (0, 2) (Cert.expand [Cert.choose (2, 1) (Cert.expand [Cert.leaf]), Cert.choose (0, 1) (Cert.leaf), Cert.choose (0, 1) (Cert.leaf)]), Cert.choose (2, 0) (Cert.leaf), Cert.choose (2, 0) (Cert.leaf)]), Cert.choose (0, 2) (Cert.expand [Cert.choose (2, 1) (Cert.expand [Cert.choose (1, 2) (Cert.expand [Cert.leaf]), Cert.choose (1, 0) (Cert.expand [Cert.leaf]), Cert.choose (1, 0) (Cert.expand [Cert.leaf])]), Cert.choose (0, 1) (Cert.leaf), Cert.choose (0, 1) (Cert.leaf), Cert.choose (0, 1) (Cert.leaf), Cert.choose (0, 1) (Cert.leaf)]), Cert.choose (0, 1) (Cert.expand [Cert.choose (2, 0) (Cert.expand [Cert.choose (1, 2) (Cert.expand [Cert.leaf]), Cert.choose (1, 0) (Cert.leaf), Cert.choose (1, 0) (Cert.leaf)]), Cert.choose (0, 2) (Cert.leaf), Cert.choose (0, 2) (Cert.leaf), Cert.choose (0, 2) (Cert.leaf), Cert.choose (0, 2) (Cert.leaf)]), Cert.choose (0, 2) (Cert.expand [Cert.choose (2, 1) (Cert.expand [Cert.choose (1, 2) (Cert.expand [Cert.leaf]), Cert.choose (1, 0) (Cert.expand [Cert.leaf]), Cert.choose (1, 0) (Cert.expand [Cert.leaf])]), Cert.choose (0, 1) (Cert.leaf), Cert.choose (0, 1) (Cert.leaf), Cert.choose (0, 1) (Cert.leaf), Cert.choose (0, 1) (Cert.leaf)])]), Cert.choose (1, 1) (Cert.expand [Cert.choose (0, 1) (Cert.expand [Cert.choose (2, 1) (Cert.leaf), Cert.choose (2, 1) (Cert.leaf), Cert.choose (2, 1) (Cert.leaf), Cert.choose (2, 0) (Cert.expand [Cert.choose (2, 2) (Cert.expand [Cert.leaf]), Cert.choose (0, 2) (Cert.leaf), Cert.choose (0, 2) (Cert.leaf)]), Cert.choose (2, 1) (Cert.leaf)]), Cert.choose (0, 0) (Cert.expand [Cert.choose (2, 2) (Cert.leaf), Cert.choose (2, 2) (Cert.leaf), Cert.choose (2, 2) (Cert.leaf), Cert.choose (2, 2) (Cert.leaf), Cert.choose (0, 2) (Cert.expand [Cert.choose (2, 0) (Cert.leaf), Cert.choose (2, 1) (Cert.expand [Cert.leaf]), Cert.choose (2, 0) (Cert.leaf)])]), Cert.choose (2, 2) (Cert.expand [Cert.choose (0, 1) (Cert.expand [Cert.choose (2, 1) (Cert.leaf), Cert.choose (2, 1) (Cert.leaf), Cert.choose (1, 0) (Cert.expand [Cert.leaf])]), Cert.choose (0, 0) (Cert.leaf), Cert.choose (0, 0) (Cert.leaf), Cert.choose (0, 0) (Cert.leaf), Cert.choose (0, 0) (Cert.leaf)]), Cert.choose (0, 0) (Cert.expand [Cert.choose (2, 2) (Cert.leaf), Cert.choose (2, 2) (Cert.leaf), Cert.choose (2, 2) (Cert.leaf), Cert.choose (2, 2) (Cert.leaf), Cert.choose (0, 2) (Cert.expand [Cert.choose (2, 0) (Cert.leaf), Cert.choose (0, 1) (Cert.leaf), Cert.choose (0, 1) (Cert.leaf)])]), Cert.choose (0, 1) (Cert.expand [Cert.choose (2, 1) (Cert.leaf), Cert.choose (2, 1) (Cert.leaf), Cert.choose (2, 1) (Cert.leaf), Cert.choose (2, 2) (Cert.expand [Cert.choose (1, 0) (Cert.expand [Cert.leaf]), Cert.choose (0, 0) (Cert.leaf), Cert.choose (0, 0) (Cert.leaf)]), Cert.choose (2, 1) (Cert.leaf)]), Cert.choose (0, 2) (Cert.expand [Cert.choose (2, 0) (Cert.leaf), Cert.choose (2, 0) (Cert.leaf), Cert.choose (2, 0) (Cert.leaf), Cert.choose (2, 2) (Cert.expand [Cert.choose (1, 0) (Cert.expand [Cert.leaf]), Cert.choose (0, 0) (Cert.leaf), Cert.choose (0, 0) (Cert.leaf)]), Cert.choose (2, 0) (Cert.leaf)]), Cert.choose (0, 2) (Cert.expand [Cert.choose (2, 0) (Cert.leaf), Cert.choose (2, 0) (Cert.leaf), Cert.choose (2, 0) (Cert.leaf), Cert.choose (2, 1) (Cert.expand [Cert.choose (0, 1) (Cert.leaf), Cert.choose (0, 0) (Cert.expand [Cert.leaf]), Cert.choose (0, 1) (Cert.leaf)]), Cert.choose (2, 0) (Cert.leaf)])]), Cert.choose (1, 1) (Cert.expand [Cert.choose (1, 0) (Cert.expand [Cert.choose (1, 2) (Cert.leaf), Cert.choose (1, 2) (Cert.leaf), Cert.choose (0, 1) (Cert.expand [Cert.choose (2, 1) (Cert.leaf), Cert.choose (2, 2) (Cert.expand [Cert.leaf]), Cert.choose (2, 1) (Cert.leaf)]), Cert.choose (1, 2) (Cert.leaf), Cert.choose (1, 2) (Cert.leaf)]), Cert.choose (1, 0) (Cert.expand [Cert.choose (1, 2) (Cert.leaf), Cert.choose (1, 2) (Cert.leaf), Cert.choose (2, 2) (Cert.expand [Cert.choose (0, 2) (Cert.expand [Cert.leaf]), Cert.choose (0, 0) (Cert.leaf), Cert.choose (0, 0) (Cert.leaf)]), Cert.choose (1, 2) (Cert.leaf), Cert.choose (1, 2) (Cert.leaf)]), Cert.choose (0, 1) (Cert.expand [Cert.choose (2, 1) (Cert.leaf), Cert.choose (2, 1) (Cert.leaf), Cert.choose (2, 1) (Cert.leaf), Cert.choose (2, 2) (Cert.expand [Cert.choose (1, 0) (Cert.expand [Cert.leaf]), Cert.choose (0, 0) (Cert.leaf), Cert.choose (0, 0) (Cert.leaf)]), Cert.choose (2, 1) (Cert.leaf)]), Cert.choose (0, 0) (Cert.expand [Cert.choose (2, 2) (Cert.leaf), Cert.choose (2, 2) (Cert.leaf), Cert.choose (2, 2) (Cert.leaf), Cert.choose (2, 2) (Cert.leaf), Cert.choose (2, 1) (Cert.expand [Cert.choose (0, 2) (Cert.expand [Cert.leaf]), Cert.choose (0, 1) (Cert.leaf), Cert.choose (0, 1) (Cert.leaf)])]), Cert.choose (0, 1) (Cert.expand [Cert.choose (2, 1) (Cert.leaf), Cert.choose (2, 1) (Cert.leaf), Cert.choose (2, 1) (Cert.leaf), Cert.choose (2, 2) (Cert.expand [Cert.choose (1, 0) (Cert.expand [Cert.leaf]), Cert.choose (0, 0) (Cert.leaf), Cert.choose (0, 0) (Cert.leaf)]), Cert.choose (2, 1) (Cert.leaf)]), Cert.choose (2, 2) (Cert.expand [Cert.choose (1, 0) (Cert.expand [Cert.choose (1, 2) (Cert.leaf), Cert.choose (1, 2) (Cert.leaf), Cert.choose (0, 1) (Cert.expand [Cert.leaf])]), Cert.choose (0, 0) (Cert.leaf), Cert.choose (0, 0) (Cert.leaf), Cert.choose (0, 0) (Cert.leaf), Cert.choose (0, 0) (Cert.leaf)]), Cert.choose (2, 1) (Cert.expand [Cert.choose (0, 1) (Cert.leaf), Cert.choose (1, 0) (Cert.expand [Cert.choose (1, 2) (Cert.leaf), Cert.choose (1, 2) (Cert.leaf), Cert.choose (0, 2) (Cert.expand [Cert.leaf])]), Cert.choose (0, 1) (Cert.leaf), Cert.choose (0, 1) (Cert.leaf), Cert.choose (0, 1) (Cert.leaf)])]), Cert.choose (1, 1) (Cert.expand [Cert.choose (1, 0) (Cert.expand [Cert.choose (1, 2) (Cert.leaf), Cert.choose (1, 2) (Cert.leaf), Cert.choose (0, 2) (Cert.expand [Cert.choose (2, 0) (Cert.leaf), Cert.choose (2, 2) (Cert.expand [Cert.leaf]), Cert.choose (2, 0) (Cert.leaf)]), Cert.choose (1, 2) (Cert.leaf), Cert.choose (1, 2) (Cert.leaf)]), Cert.choose (0, 0) (Cert.expand [Cert.choose (2, 2) (Cert.leaf), Cert.choose (2, 2) (Cert.leaf), Cert.choose (2, 2) (Cert.leaf), Cert.choose (2, 2) (Cert.leaf), Cert.choose (2, 0) (Cert.expand [Cert.choose (1, 0) (Cert.leaf), Cert.choose (0, 2) (Cert.leaf), Cert.choose (0, 2) (Cert.leaf)])]), Cert.choose (1, 0) (Cert.expand [Cert.choose (1, 2) (Cert.leaf), Cert.choose (1, 2) (Cert.leaf), Cert.choose (2, 2) (Cert.expand [Cert.choose (0, 1) (Cert.expand [Cert.leaf]), Cert.choose (0, 0) (Cert.leaf), Cert.choose (0, 0) (Cert.leaf)]), Cert.choose (1, 2) (Cert.leaf), Cert.choose (1, 2) (Cert.leaf)]), Cert.choose (0, 0) (Cert.expand [Cert.choose (2, 2) (Cert.leaf), Cert.choose (2, 2) (Cert.leaf), Cert.choose (2, 2) (Cert.leaf), Cert.choose (2, 2) (Cert.leaf), Cert.choose (2, 0) (Cert.expand [Cert.choose (0, 2) (Cert.leaf), Cert.choose (1, 2) (Cert.expand [Cert.leaf]), Cert.choose (0, 2) (Cert.leaf)])]), Cert.choose (0, 2) (Cert.expand [Cert.choose (2, 0) (Cert.leaf), Cert.choose (2, 0) (Cert.leaf), Cert.choose (2, 0) (Cert.leaf), Cert.choose (2, 2) (Cert.expand [Cert.choose (1, 0) (Cert.expand [Cert.leaf]), Cert.choose (0, 0) (Cert.leaf), Cert.choose (0, 0) (Cert.leaf)]), Cert.choose (2, 0) (Cert.leaf)]), Cert.choose (2, 2) (Cert.expand [Cert.choose (1, 0) (Cert.expand [Cert.choose (1, 2) (Cert.leaf), Cert.choose (1, 2) (Cert.leaf), Cert.choose (0, 1) (Cert.expand [Cert.leaf])]), Cert.choose (0, 0) (Cert.leaf), Cert.choose (0, 0) (Cert.leaf), Cert.choose (0, 0) (Cert.leaf), Cert.choose (0, 0) (Cert.leaf)]), Cert.choose (2, 0) (Cert.expand [Cert.choose (0, 2) (Cert.leaf), Cert.choose (0, 2) (Cert.leaf), Cert.choose (1, 2) (Cert.expand [Cert.choose (1, 0) (Cert.leaf), Cert.choose (1, 0) (Cert.leaf), Cert.choose (0, 0) (Cert.expand [Cert.leaf])]), Cert.choose (0, 2) (Cert.leaf), Cert.choose (0, 2) (Cert.leaf)])]), Cert.choose (1, 1) (Cert.expand [Cert.choose (0, 1) (Cert.expand [Cert.choose (2, 1) (Cert.leaf), Cert.choose (2, 1) (Cert.leaf), Cert.choose (2, 1) (Cert.leaf), Cert.choose (2, 1) (Cert.leaf), Cert.choose (2, 0) (Cert.expand [Cert.choose (1, 2) (Cert.expand [Cert.leaf]), Cert.choose (0, 2) (Cert.leaf), Cert.choose (0, 2) (Cert.leaf)])]), Cert.choose (1, 0) (Cert.expand [Cert.choose (1, 2) (Cert.leaf), Cert.choose (1, 2) (Cert.leaf), Cert.choose (0, 2) (Cert.expand [Cert.choose (2, 0) (Cert.leaf), Cert.choose (2, 1) (Cert.expand [Cert.leaf]), Cert.choose (2, 0) (Cert.leaf)]), Cert.choose (1, 2) (Cert.leaf), Cert.choose (1, 2) (Cert.leaf)]), Cert.choose (1, 2) (Cert.expand [Cert.choose (1, 0) (Cert.leaf), Cert.choose (1, 0) (Cert.leaf), Cert.choose (0, 1) (Cert.expand [Cert.choose (2, 1) (Cert.leaf), Cert.choose (2, 1) (Cert.leaf), Cert.choose (2, 0) (Cert.expand [Cert.leaf])]), Cert.choose (1, 0) (Cert.leaf), Cert.choose (1, 0) (Cert.leaf)]), Cert.choose (0, 1) (Cert.expand [Cert.choose (2, 1) (Cert.leaf), Cert.choose (2, 1) (Cert.leaf), Cert.choose (2, 1) (Cert.leaf), Cert.choose (2, 1) (Cert.leaf), Cert.choose (2, 0) (Cert.expand [Cert.choose (0, 2) (Cert.leaf), Cert.choose (1, 2) (Cert.expand [Cert.leaf]), Cert.choose (0, 2) (Cert.leaf)])]), Cert.choose (0, 2) (Cert.expand [Cert.choose (2, 0) (Cert.leaf), Cert.choose (2, 0) (Cert.leaf), Cert.choose (2, 0) (Cert.leaf), Cert.choose (2, 1) (Cert.expand [Cert.choose (0, 1) (Cert.leaf), Cert.choose (0, 0) (Cert.expand [Cert.leaf]), Cert.choose (0, 1) (Cert.leaf)]), Cert.choose (2, 0) (Cert.leaf)]), Cert.choose (2, 1) (Cert.expand [Cert.choose (0, 1) (Cert.leaf), Cert.choose (1, 0) (Cert.expand [Cert.choose (1, 2) (Cert.leaf), Cert.choose (1, 2) (Cert.leaf), Cert.choose (0, 2) (Cert.expand [Cert.leaf])]), Cert.choose (0, 1) (Cert.leaf), Cert.choose (0, 1) (Cert.leaf), Cert.choose (0, 1) (Cert.leaf)]), Cert.choose (2, 0) (Cert.expand [Cert.choose (0, 2) (Cert.leaf), Cert.choose (0, 2) (Cert.leaf), Cert.choose (1, 2) (Cert.expand [Cert.choose (1, 0) (Cert.leaf), Cert.choose (1, 0) (Cert.leaf), Cert.choose (0, 0) (Cert.expand [Cert.leaf])]), Cert.choose (0, 2) (Cert.leaf), Cert.choose (0, 2) (Cert.leaf)])])]

set_option maxRecDepth 100000 in
set_option maxHeartbeats 4000000 in
/-- C5: from the completely empty board, `minimax` with `maximizing = true`
returns 0 — Tic-Tac-Toe under optimal play by both sides is a draw.  The two
bounds are established by kernel evaluation of the two draw-securing
certificates through the sound checkers `lbCert` and `ubCert`, which avoids
evaluating the full half-million-node game tree. -/
theorem c5_minimax_empty_draw : minimax initializeBoard 0 true = 0 := by
  have hnum : numEmpty initializeBoard = 9 := by decide
  have hlb := lbCert_sound 0 9 lbCertEmpty initializeBoard 0 true (by decide!)
  have hub := ubCert_sound 0 9 ubCertEmpty initializeBoard 0 true (by decide!)
  unfold minimax
  rw [hnum]
  omega

/-- C6: for every fuel, board, depth and flag, the state-passing reading of Go
`minimax` hands back the board exactly as it received it: every speculative
mark is retracted to the empty cell it overwrote before the call returns. -/
theorem c6_minimaxS_restores_board (fuel : Nat) (b : board) (d : Nat) (maxi : Bool) :
    (minimaxS fuel b d maxi).2 = b := by
  rw [minimaxS_spec fuel b d maxi]

/-- C7: on every board with at least one occupied cell (so the nine-empty-cell
random opener is not taken), `findBestMove` does not depend on the random draw:
any two calls return the same move. -/
theorem c7_findBestMove_deterministic (b : board)
    (h : ∃ i j : Fin 3, getCell b i j ≠ emptyCell) (r1 r2 : Nat) :
    findBestMove r1 b = findBestMove r2 b := by
  have h9 := occupied_length_ne_nine b h
  by_cases hne : getAvailableMoves b = []
  · rw [findBestMove_full b r1 hne, findBestMove_full b r2 hne]
  · rw [findBestMove_eq_loopResult b r1 h9 hne, findBestMove_eq_loopResult b r2 h9 hne]

/-- Witness for C7 at the board with one human mark, with two distinct draws. -/
theorem c7_witness :
    (∃ i j : Fin 3, getCell bOneX i j ≠ emptyCell) ∧
    findBestMove 3 bOneX = findBestMove 7 bOneX :=
  ⟨by decide, c7_findBestMove_deterministic bOneX (by decide) 3 7⟩

/-- C8: whenever at least one move is available (and the random opener is not
taken), the selection loop records a best move — its best-move component is
never the -1 sentinel, so the fallback branch is unreachable and `findBestMove`
returns the loop's move; and when no moves remain at all, `findBestMove`
returns the sentinel (-1, -1) instead of crashing. -/
theorem c8_fallback_unreachable (b : board) (randIdx : Nat) :
    ((getAvailableMoves b ≠ [] ∧ (getAvailableMoves b).length ≤ 8) →
      ((getAvailableMoves b).foldl (selectStep b) (minInt32, -1, -1)).2.1 ≠ -1 ∧
      findBestMove randIdx b =
        ((getAvailableMoves b).foldl (selectStep b) (minInt32, -1, -1)).2) ∧
    (getAvailableMoves b = [] → findBestMove randIdx b = (-1, -1)) := by
  constructor
  · rintro ⟨hne, h8⟩
    have h9 : ¬ (getAvailableMoves b).length = 9 := by omega
    obtain ⟨m0, hm0⟩ := List.exists_mem_of_ne_nil _ hne
    obtain ⟨k, hk, heq, _, _, _⟩ :=
      selLoop_select b (getAvailableMoves b) (minInt32, -1, -1)
        ⟨m0, hm0, minInt32_lt_rootScore b m0⟩
    constructor
    · rw [heq]
      dsimp only
      omega
    · exact findBestMove_eq_loopResult b randIdx h9 hne
  · intro h0
    exact findBestMove_full b randIdx h0

/-- Witness for C8: a board with moves left (loop selects, no sentinel) and a
full board (sentinel returned). -/
theorem c8_witness :
    (getAvailableMoves bOneX ≠ [] ∧ (getAvailableMoves bOneX).length ≤ 8 ∧
      ((getAvailableMoves bOneX).foldl (selectStep bOneX) (minInt32, -1, -1)).2.1 ≠ -1) ∧
    (getAvailableMoves bFull = [] ∧ findBestMove 0 bFull = (-1, -1)) :=
  ⟨⟨by decide, by decide,
      ((c8_fallback_unreachable bOneX 0).1 ⟨by decide, by decide⟩).1⟩,
   ⟨by decide, (c8_fallback_unreachable bFull 0).2 (by decide)⟩⟩

/-- C9 counterexample: on [X,O,X / O,X,O / _,_,_] the claim says the returned
move leaves the human with no line-completing reply.  In fact `findBestMove`
returns (2,0), and the human then wins by playing (2,2), completing the main
diagonal: the position carries two simultaneous threats, (2,0) and (2,2), and
no single move blocks both. -/
theorem c9_counterexample :
    findBestMove 0 b9 = (2, 0) ∧
    checkWin (setCell (setCell b9 2 0 playerO) 2 2 playerX) playerX = true := by
  decide

/-- C9 amended: on [X,O,X / O,X,O / _,_,_] every computer move scores -10 (the
position is lost: the human holds the double threat (2,0)/(2,2)), so
`findBestMove` returns the first available move in row-major order, (2,0),
for every random draw. -/
theorem c9_forced_loss_amended (randIdx : Nat) :
    findBestMove randIdx b9 = (2, 0) ∧
    (getAvailableMoves b9).map (fun m => rootScore b9 m) = [-10, -10, -10] := by
  constructor
  · rw [findBestMove_eq_loopResult b9 randIdx (by decide) (by decide)]
    decide
  · decide

/-- C10: for every board, depth and flag, `minimax` returns one of -10, 0, 10:
the `MinInt32` / `MaxInt32` initialisation sentinels can never escape, because
every non-terminal board has an available move and every child value is itself
in the range. -/
theorem c10_minimax_range (b : board) (d : Nat) (maxi : Bool) :
    minimax b d maxi = -10 ∨ minimax b d maxi = 0 ∨ minimax b d maxi = 10 :=
  minimax_range b d maxi
